import Mathlib

/-!
Verification of the Farmora agricultural advisory / pest detection service.

This file gives a shallow embedding, in Lean 4, of the parts of the Python
source that the specification makes claims about:

* `ml-service/ai_advisory/intelligent_response_engine.py` — regex based
  intent detection, entity extraction, urgency assessment and templated
  response generation;
* `ml-service/ai_advisory/agricultural_knowledge_base.py` — the static
  knowledge base and its lookup/search operations;
* `ml-service/ai_advisory/advanced_advisory_api.py` — conversation sessions,
  `process_query`, and the session sweep `cleanup_old_sessions`;
* `ml-service/utils/prediction_utils.py` and `ml-service/utils/image_utils.py`
  — the prediction result assembly and image validation;
* `ml-service/api/pest_detection_api.py` and `ml-service/simple_api.py` —
  the single and batch predict endpoints.

Python strings are modelled as `List Char`; Python floats that carry
probabilities/scores are modelled as `ℚ`; Python dict/list/str/int JSON-like
data is modelled by the inductive type `Val`.  Regular expressions used by the
source are all alternations of chains of literals separated by `.*`, and are
modelled as such (a `.` does not match a newline, hence matching is performed
inside newline-separated segments).  Code that can raise is modelled with
`Except`; `try/except` handlers are modelled as total functions of the
outcome of their body.
-/

/-! ## Basic Python string helpers -/

/-- The characters of a string (Python `str` as a list of characters). -/
def chars (s : String) : List Char := s.toList

/-- Python `str.lower()` on the character level (source text is ASCII). -/
def lowerL (l : List Char) : List Char := l.map Char.toLower

/-- Python `needle in haystack` on strings: substring containment. -/
def containsSub (needle : List Char) : List Char → Bool
  | [] => needle.isEmpty
  | c :: rest => needle.isPrefixOf (c :: rest) || containsSub needle rest

/-- Remainder of `haystack` after the end of the first occurrence of
`needle`, or `none` when `needle` does not occur. -/
def dropFirstOcc (needle : List Char) : List Char → Option (List Char)
  | [] => if needle.isEmpty then some [] else none
  | c :: rest =>
      if needle.isPrefixOf (c :: rest) then some ((c :: rest).drop needle.length)
      else dropFirstOcc needle rest

/-- The apostrophe character, used by Python `repr` of strings. -/
def sqc : String := String.singleton (Char.ofNat 39)

/-- Opening brace, used by Python `str` of dicts. -/
def obr : String := String.singleton (Char.ofNat 123)

/-- Closing brace, used by Python `str` of dicts. -/
def cbr : String := String.singleton (Char.ofNat 125)

/-- Python `sep.join(parts)`. -/
def pyJoin (sep : String) : List String → String
  | [] => ""
  | [x] => x
  | x :: rest => x ++ sep ++ pyJoin sep rest

/-- Python `str.title()`: the first cased character of every run of cased
characters is upper-cased, the rest lower-cased. -/
def pyTitleGo : Bool → List Char → List Char
  | _, [] => []
  | prevAlpha, c :: rest =>
      if c.isAlpha then
        (if prevAlpha then c.toLower else c.toUpper) :: pyTitleGo true rest
      else c :: pyTitleGo false rest

/-- Python `str.title()` on a string. -/
def pyTitle (s : String) : String := String.mk (pyTitleGo false s.toList)

/-- Python `str.replace(a, b)` for single characters. -/
def pyReplaceChar (a b : Char) (s : String) : String :=
  String.mk (s.toList.map (fun c => if c = a then b else c))

/-- Python `str.split()` (split on runs of whitespace, dropping empties). -/
def pySplitWs (l : List Char) : List (List Char) :=
  ((l.splitOn ' ').map (fun w => w.splitOn '\n')).flatten.filter (fun w => !w.isEmpty)

/-! ## Regex pattern model

Every regex in `intelligent_response_engine.py` is an alternation
`b₁|b₂|…` where each branch `bᵢ` is a chain `l₀.*l₁.*…` of literals
separated by `.*`.  Since `.` does not match `\n` (Python default), a branch
matches iff, inside some newline-separated segment of the text, its literals
occur in order without overlapping. -/

/-- A chain `l₀.*l₁.*…`: the list of its literals. -/
abbrev Chain := List (List Char)

/-- A whole pattern: the list of its alternation branches. -/
abbrev Pattern := List Chain

/-- Does a chain of literals match inside one newline-free segment?
Greedy left-to-right search for each literal in order. -/
def chainMatch : Chain → List Char → Bool
  | [], _ => true
  | lit :: lits, s =>
      match dropFirstOcc lit s with
      | none => false
      | some rest => chainMatch lits rest

/-- `re.search(pattern, text)` as a Bool, for alternation-of-chain patterns. -/
def patMatch (p : Pattern) (text : List Char) : Bool :=
  p.any (fun chain => (text.splitOn '\n').any (fun seg => chainMatch chain seg))

/-- Helper to write a pattern as string literals. -/
def pat (branches : List (List String)) : Pattern :=
  branches.map (fun chain => chain.map chars)

/-! ## Intent patterns (`IntelligentResponseEngine._load_intent_patterns`) -/

/-- The ordered intent pattern table from `_load_intent_patterns`
(Python dicts preserve insertion order). -/
def intent_patterns : List (String × List Pattern) :=
  [ ("pest_identification",
      [ pat [["pest", "problem"], ["bug", "eating"], ["insect", "damage"],
             ["holes", "leaves"], ["yellow", "leaves"], ["curled", "leaves"]],
        pat [["what", "pest"], ["identify", "pest"], ["pest", "name"],
             ["bug", "identification"]],
        pat [["damage", "crop"], ["eating", "plant"], ["destroying", "crop"]] ]),
    ("disease_identification",
      [ pat [["disease", "plant"], ["fungal", "infection"], ["viral", "disease"],
             ["bacterial", "infection"]],
        pat [["spots", "leaves"], ["wilting", "plant"], ["rotting", "stem"],
             ["moldy", "leaves"]],
        pat [["plant", "sick"], ["crop", "disease"], ["leaf", "disease"]] ]),
    ("crop_cultivation",
      [ pat [["how", "grow"], ["planting", "season"], ["when", "plant"],
             ["seed", "variety"]],
        pat [["cultivation", "method"], ["farming", "technique"],
             ["crop", "management"]],
        pat [["best", "variety"], ["recommended", "seed"], ["planting", "guide"]] ]),
    ("fertilizer_advice",
      [ pat [["fertilizer", "recommend"], ["nutrient", "requirement"],
             ["npk", "ratio"]],
        pat [["organic", "fertilizer"], ["chemical", "fertilizer"],
             ["soil", "nutrition"]],
        pat [["when", "fertilize"], ["how", "much", "fertilizer"],
             ["fertilizer", "schedule"]] ]),
    ("irrigation_advice",
      [ pat [["irrigation", "system"], ["water", "requirement"],
             ["watering", "schedule"]],
        pat [["drip", "irrigation"], ["sprinkler", "system"],
             ["water", "management"]],
        pat [["how", "much", "water"], ["when", "irrigate"], ["water", "stress"]] ]),
    ("weather_related",
      [ pat [["monsoon", "farming"], ["drought", "management"],
             ["frost", "protection"]],
        pat [["weather", "condition"], ["climate", "change"],
             ["seasonal", "advice"]],
        pat [["rain", "problem"], ["heat", "stress"], ["cold", "weather"]] ]),
    ("market_prices",
      [ pat [["market", "price"], ["crop", "price"], ["selling", "price"],
             ["market", "trend"]],
        pat [["price", "forecast"], ["market", "analysis"], ["profit", "margin"]],
        pat [["when", "sell"], ["market", "timing"], ["price", "information"]] ]),
    ("soil_management",
      [ pat [["soil", "health"], ["soil", "test"], ["ph", "level"],
             ["soil", "fertility"]],
        pat [["organic", "matter"], ["soil", "improvement"], ["soil", "erosion"]],
        pat [["soil", "preparation"], ["land", "preparation"],
             ["soil", "amendment"]] ]) ]

/-- The single greeting pattern from `_detect_intent`. -/
def greeting_pattern : Pattern :=
  pat [["hello"], ["hi"], ["hey"], ["good morning"], ["good evening"], ["greetings"]]

/-- The nested loop of `_detect_intent`: scan intents in order, and inside
each intent its patterns in order, returning the first intent one of whose
patterns matches. -/
def detect_intent_scan : List (String × List Pattern) → List Char → Option String
  | [], _ => none
  | (name, pats) :: rest, q =>
      if pats.any (fun p => patMatch p q) then some name
      else detect_intent_scan rest q

/-- `IntelligentResponseEngine._detect_intent` on lower-cased text:
first intent category whose pattern matches, else `greeting` when the
greeting pattern matches, else `general_inquiry`. -/
def detect_intent (q : List Char) : String :=
  match detect_intent_scan intent_patterns (lowerL q) with
  | some intent => intent
  | none =>
      if patMatch greeting_pattern (lowerL q) then "greeting" else "general_inquiry"

/-- The wording the spec uses for intent detection ("scan an ordered list of regex
patterns per intent category and return the first matching intent, defaulting
to a catch-all"), written directly with `List.find?`.  Used to state the
refinement claim C3. -/
def spec_first_intent (q : List Char) : Option String :=
  (intent_patterns.find? (fun ip => ip.2.any (fun p => patMatch p (lowerL q)))).map
    (fun ip => ip.1)

/-! ## Entity extraction, urgency (`_extract_entities`, `_assess_urgency`) -/

/-- The entity record built by `_extract_entities` (the `locations` and
`quantities` lists are never populated by the source). -/
structure Entities where
  crops : List String
  pests : List String
  diseases : List String
  locations : List String
  time_references : List (List Char)
  quantities : List String
deriving DecidableEq, Repr

/-- Crop vocabulary of `_extract_entities`. -/
def crop_names : List String :=
  ["rice", "wheat", "tomato", "cotton", "corn", "potato", "onion", "garlic",
   "sugarcane", "banana", "mango"]

/-- Pest vocabulary of `_extract_entities`. -/
def pest_names : List String :=
  ["aphid", "bollworm", "caterpillar", "thrips", "whitefly", "mites", "beetle",
   "armyworm"]

/-- Disease vocabulary of `_extract_entities`. -/
def disease_names : List String :=
  ["blight", "rust", "blast", "wilt", "rot", "mold", "fungus"]

/-- Alternatives of the time-reference pattern of `_extract_entities`. -/
def time_alternatives : List (List Char) :=
  [chars "today", chars "tomorrow", chars "week", chars "month", chars "season",
   chars "spring", chars "summer", chars "winter", chars "monsoon"]

/-- First alternative (in listed order) matching at the very start of `s`. -/
def firstAltAt (alts : List (List Char)) (s : List Char) : Option (List Char) :=
  alts.find? (fun a => a.isPrefixOf s)

/-- `re.findall` for an alternation of non-empty literals: scan left to
right; at each position the first alternative that matches is recorded and
the scan resumes after it (non-overlapping matches). -/
def findAllAlt (alts : List (List Char)) : List Char → List (List Char)
  | [] => []
  | c :: rest =>
      match firstAltAt alts (c :: rest) with
      | some m =>
          if h : m.length = 0 then findAllAlt alts rest
          else m :: findAllAlt alts ((c :: rest).drop m.length)
      | none => findAllAlt alts rest
  termination_by l => l.length
  decreasing_by
    all_goals simp [List.length_drop]
    all_goals omega

/-- `IntelligentResponseEngine._extract_entities` on lower-cased text. -/
def extract_entities (q : List Char) : Entities :=
  { crops := crop_names.filter (fun c => containsSub (chars c) q)
    pests := pest_names.filter (fun p => containsSub (chars p) q)
    diseases := disease_names.filter (fun d => containsSub (chars d) q)
    locations := []
    time_references := findAllAlt time_alternatives q
    quantities := [] }

/-- Urgent keywords of `_assess_urgency`. -/
def urgent_keywords : List String :=
  ["urgent", "emergency", "dying", "critical", "immediately", "help", "crisis",
   "destroy"]

/-- Medium-urgency keywords of `_assess_urgency`. -/
def medium_keywords : List String :=
  ["problem", "issue", "concern", "damage", "loss", "affected"]

/-- `IntelligentResponseEngine._assess_urgency` on lower-cased text. -/
def assess_urgency (q : List Char) : String :=
  if urgent_keywords.any (fun k => containsSub (chars k) q) then "high"
  else if medium_keywords.any (fun k => containsSub (chars k) q) then "medium"
  else "low"

/-- The analysis record returned by `analyze_query` (the `context` entry is
just the caller-provided dictionary and is not modelled). -/
structure Analysis where
  intent : String
  entities : Entities
  urgency : String
  original_query : List Char
  processed_query : List Char
deriving DecidableEq, Repr

/-- `IntelligentResponseEngine.analyze_query`. -/
def analyze_query (query : String) : Analysis :=
  let ql := lowerL (chars query)
  { intent := detect_intent ql
    entities := extract_entities ql
    urgency := assess_urgency ql
    original_query := chars query
    processed_query := ql }

/-! ## JSON-like values (Python dict/list/str/int data)

The knowledge base and the pest databases are nested Python structures of
dicts, lists, strings and ints.  `Val.obj` keeps fields in insertion order,
as Python dicts do. -/

/-- Python data value: str, int, list or dict. -/
inductive Val where
  | s (x : String)
  | n (x : Int)
  | arr (xs : List Val)
  | obj (fs : List (String × Val))
deriving Repr

/-- Decidable equality for `Val` (structural). -/
def Val.beq : Val → Val → Bool
  | .s a, .s b => a == b
  | .n a, .n b => a == b
  | .arr a, .arr b => beqList a b
  | .obj a, .obj b => beqFields a b
  | _, _ => false
where
  beqList : List Val → List Val → Bool
    | [], [] => true
    | x :: xs, y :: ys => Val.beq x y && beqList xs ys
    | _, _ => false
  beqFields : List (String × Val) → List (String × Val) → Bool
    | [], [] => true
    | (k, x) :: xs, (l, y) :: ys => k == l && Val.beq x y && beqFields xs ys
    | _, _ => false

instance : BEq Val := ⟨Val.beq⟩

/-- Python `dict.get(key, default)` (the source only calls `.get` on dicts). -/
def Val.get (v : Val) (key : String) (dflt : Val) : Val :=
  match v with
  | .obj fs => (fs.lookup key).getD dflt
  | _ => dflt

/-- Python truthiness of a value (`if pest_info:` etc.). -/
def Val.truthy : Val → Bool
  | .s x => !x.isEmpty
  | .n k => k != 0
  | .arr xs => !xs.isEmpty
  | .obj fs => !fs.isEmpty

/-- The items of a `Val.arr`, `[]` otherwise (used for list slicing/joins). -/
def Val.items : Val → List Val
  | .arr xs => xs
  | _ => []

/-- The fields of a `Val.obj`, `[]` otherwise (used for `.items()` loops). -/
def Val.fields : Val → List (String × Val)
  | .obj fs => fs
  | _ => []

mutual

/-- Python `repr` of a value: strings single-quoted, dicts/lists rendered
with brackets, `, ` separators and `: ` between key and value. -/
def pyRepr : Val → String
  | .s x => sqc ++ x ++ sqc
  | .n k => toString k
  | .arr xs => "[" ++ pyReprList xs ++ "]"
  | .obj fs => obr ++ pyReprFields fs ++ cbr

/-- `repr` of list elements, `, `-separated. -/
def pyReprList : List Val → String
  | [] => ""
  | [v] => pyRepr v
  | v :: rest => pyRepr v ++ ", " ++ pyReprList rest

/-- `repr` of dict fields, `, `-separated. -/
def pyReprFields : List (String × Val) → String
  | [] => ""
  | [(k, v)] => sqc ++ k ++ sqc ++ ": " ++ pyRepr v
  | (k, v) :: rest => sqc ++ k ++ sqc ++ ": " ++ pyRepr v ++ ", " ++ pyReprFields rest

end

/-- Python `str` of a value: a bare string for `str`, `repr` rendering for
containers and ints. -/
def pyStrTop : Val → String
  | .s x => x
  | v => pyRepr v

/-- Short constructor for string values. -/
def vs (x : String) : Val := Val.s x

/-- Short constructor for int values. -/
def vn (x : Int) : Val := Val.n x

/-- Short constructor for list values. -/
def va (xs : List Val) : Val := Val.arr xs

/-- Short constructor for dict values. -/
def vo (fs : List (String × Val)) : Val := Val.obj fs

/-- Short constructor for lists of strings. -/
def vss (xs : List String) : Val := Val.arr (xs.map Val.s)

/-! ## Knowledge base data (`AgriculturalKnowledgeBase.__init__`) -/

/-- `_load_crop_database`. -/
def crops_db : List (String × Val) :=
  [ ("rice", vo
      [ ("scientific_name", vs "Oryza sativa"),
        ("growth_duration", vs "90-120 days"),
        ("planting_season", vss ["Kharif", "Rabi"]),
        ("soil_type", vss ["Clay", "Clay-loam", "Silty-clay"]),
        ("ph_range", vs "5.5-7.0"),
        ("temperature", vs "20-35°C"),
        ("rainfall", vs "1000-2000mm"),
        ("common_varieties", vss ["Basmati", "Jasmine", "IR64", "Swarna"]),
        ("spacing", vs "20cm x 15cm"),
        ("seed_rate", vs "20-25 kg/hectare"),
        ("fertilizer_npk", vs "120:60:40 kg/hectare"),
        ("common_pests", vss ["Brown planthopper", "Stem borer", "Rice blast"]),
        ("harvesting", vs "110-120 days after transplanting"),
        ("yield_potential", vs "4-6 tonnes/hectare"),
        ("storage_tips", vs "Dry to 12-14% moisture, store in cool, dry place"),
        ("market_price_range", vs "$200-400 per tonne") ]),
    ("wheat", vo
      [ ("scientific_name", vs "Triticum aestivum"),
        ("growth_duration", vs "110-130 days"),
        ("planting_season", vss ["Rabi"]),
        ("soil_type", vss ["Loam", "Clay-loam", "Sandy-loam"]),
        ("ph_range", vs "6.0-7.5"),
        ("temperature", vs "15-25°C"),
        ("rainfall", vs "300-1000mm"),
        ("common_varieties", vss ["HD2967", "PBW343", "WH1105", "DBW17"]),
        ("spacing", vs "22.5cm row spacing"),
        ("seed_rate", vs "100-125 kg/hectare"),
        ("fertilizer_npk", vs "120:60:40 kg/hectare"),
        ("common_pests", vss ["Aphids", "Termites", "Rust", "Smut"]),
        ("harvesting", vs "110-130 days after sowing"),
        ("yield_potential", vs "4-5 tonnes/hectare"),
        ("storage_tips", vs "Dry to 12% moisture, use sealed containers"),
        ("market_price_range", vs "$180-350 per tonne") ]),
    ("tomato", vo
      [ ("scientific_name", vs "Solanum lycopersicum"),
        ("growth_duration", vs "70-90 days"),
        ("planting_season", vss ["Summer", "Winter", "Rainy"]),
        ("soil_type", vss ["Sandy-loam", "Loam", "Well-drained"]),
        ("ph_range", vs "6.0-7.0"),
        ("temperature", vs "20-30°C"),
        ("rainfall", vs "600-1200mm"),
        ("common_varieties", vss ["Determinate", "Indeterminate", "Cherry", "Roma"]),
        ("spacing", vs "60cm x 45cm"),
        ("seed_rate", vs "200-400g/hectare"),
        ("fertilizer_npk", vs "180:120:120 kg/hectare"),
        ("common_pests", vss ["Whitefly", "Aphids", "Thrips", "Hornworm"]),
        ("harvesting", vs "70-90 days from transplanting"),
        ("yield_potential", vs "25-40 tonnes/hectare"),
        ("storage_tips", vs "Store at 12-15°C with 85-90% humidity"),
        ("market_price_range", vs "$300-800 per tonne") ]),
    ("cotton", vo
      [ ("scientific_name", vs "Gossypium hirsutum"),
        ("growth_duration", vs "160-200 days"),
        ("planting_season", vss ["Kharif"]),
        ("soil_type", vss ["Black cotton soil", "Sandy-loam"]),
        ("ph_range", vs "6.0-8.0"),
        ("temperature", vs "25-35°C"),
        ("rainfall", vs "500-1000mm"),
        ("common_varieties", vss ["Bt Cotton", "Hybrid varieties", "Desi cotton"]),
        ("spacing", vs "45-60cm x 10-15cm"),
        ("seed_rate", vs "3-4 kg/hectare (delinted)"),
        ("fertilizer_npk", vs "80:40:40 kg/hectare"),
        ("common_pests", vss ["Bollworm", "Aphids", "Thrips", "Whitefly"]),
        ("harvesting", vs "160-180 days, multiple pickings"),
        ("yield_potential", vs "500-700 kg/hectare (lint)"),
        ("storage_tips", vs "Store in moisture-proof bags"),
        ("market_price_range", vs "$1500-2000 per tonne") ]) ]

/-- `_load_pest_database`. -/
def pests_db : List (String × Val) :=
  [ ("aphids", vo
      [ ("scientific_name", vs "Aphis gossypii"),
        ("identification", vo
          [ ("size", vs "1-4mm"),
            ("color", vs "Green, black, or white"),
            ("shape", vs "Pear-shaped, soft body"),
            ("location", vs "Undersides of leaves, stems"),
            ("behavior", vs "Cluster in colonies, produce honeydew") ]),
        ("damage_symptoms", vss
          [ "Curled or yellowing leaves",
            "Sticky honeydew on plant surfaces",
            "Presence of sooty mold",
            "Stunted plant growth",
            "Wilting of young shoots" ]),
        ("affected_crops", vss ["tomato", "cotton", "cabbage", "potato"]),
        ("favorable_conditions", vs "Cool, moist weather, 18-24°C"),
        ("lifecycle", vs "7-10 days, multiple generations per season"),
        ("economic_threshold", vs "5-10 aphids per leaf"),
        ("management", vo
          [ ("biological", vss
              [ "Release ladybugs (500-1000 per acre)",
                "Encourage lacewings and parasitic wasps",
                "Plant banker plants like barley" ]),
            ("organic", vss
              [ "Neem oil spray (3-5ml/liter water)",
                "Insecticidal soap (2-3ml/liter)",
                "Garlic-chili spray",
                "Yellow sticky traps" ]),
            ("chemical", vss
              [ "Imidacloprid 17.8% SL (0.3ml/liter)",
                "Thiamethoxam 25% WG (0.2g/liter)",
                "Acetamiprid 20% SP (0.2g/liter)" ]),
            ("cultural", vss
              [ "Remove weed hosts around field",
                "Use reflective aluminum mulch",
                "Proper plant spacing for air circulation",
                "Regular monitoring and early detection" ]) ]),
        ("prevention", vss
          [ "Crop rotation with non-host crops",
            "Maintain field hygiene",
            "Avoid excessive nitrogen fertilization",
            "Use resistant varieties when available" ]) ]),
    ("bollworm", vo
      [ ("scientific_name", vs "Helicoverpa armigera"),
        ("identification", vo
          [ ("size", vs "Larvae 3-4cm when mature"),
            ("color", vs "Green to brown with distinctive stripes"),
            ("shape", vs "Cylindrical caterpillar"),
            ("location", vs "Inside bolls, flowers, fruits"),
            ("behavior", vs "Bore into fruits, active at night") ]),
        ("damage_symptoms", vss
          [ "Circular holes in bolls or fruits",
            "Frass (insect excrement) near holes",
            "Premature dropping of bolls",
            "Quality reduction in cotton lint",
            "Flower damage and shedding" ]),
        ("affected_crops", vss ["cotton", "tomato", "chickpea", "pigeon pea"]),
        ("favorable_conditions", vs "Warm humid weather, 25-30°C"),
        ("lifecycle", vs "28-35 days, 4-6 generations per season"),
        ("economic_threshold", vs "8-10% damaged bolls or fruits"),
        ("management", vo
          [ ("biological", vss
              [ "Release Trichogramma wasps (50,000-100,000/ha)",
                "NPV (Nuclear Polyhedrosis Virus) spray",
                "Encourage spiders and predatory beetles" ]),
            ("organic", vss
              [ "Bt spray (Bacillus thuringiensis) 2-3g/liter",
                "Neem-based products 5ml/liter",
                "Pheromone traps (10-12 traps/ha)" ]),
            ("chemical", vss
              [ "Chlorantraniliprole 18.5% SC (0.3ml/liter)",
                "Flubendiamide 480% SC (0.2ml/liter)",
                "Emamectin benzoate 5% SG (0.4g/liter)" ]),
            ("cultural", vss
              [ "Deep summer plowing",
                "Synchronized sowing dates",
                "Destroy crop residues after harvest",
                "Inter-cropping with marigold or coriander" ]) ]) ]) ]

/-- `_load_disease_database`. -/
def diseases_db : List (String × Val) :=
  [ ("blast", vo
      [ ("pathogen", vs "Magnaporthe oryzae (fungal)"),
        ("affected_crops", vss ["rice"]),
        ("symptoms", vss
          [ "Diamond-shaped lesions on leaves",
            "Brown to gray spots with darker borders",
            "Neck rot in panicles",
            "Complete panicle bleaching" ]),
        ("favorable_conditions", vs "High humidity (>85%), temperature 25-28°C"),
        ("management", vo
          [ ("resistant_varieties", vss ["IR64", "Swarna Sub1", "PR106"]),
            ("fungicides", vss ["Tricyclazole 75% WP", "Carbendazim 50% WP"]),
            ("cultural_practices", vss
              [ "Avoid excessive nitrogen",
                "Proper water management",
                "Remove infected plant debris" ]) ]) ]),
    ("blight", vo
      [ ("pathogen", vs "Phytophthora infestans (oomycete)"),
        ("affected_crops", vss ["tomato", "potato"]),
        ("symptoms", vss
          [ "Water-soaked lesions on leaves",
            "White fungal growth on leaf undersides",
            "Rapid plant collapse",
            "Fruit rot with dark lesions" ]),
        ("favorable_conditions", vs "Cool, moist conditions, 15-20°C, >90% humidity"),
        ("management", vo
          [ ("resistant_varieties", vss ["Mountain Pride", "Iron Lady"]),
            ("fungicides", vss ["Copper oxychloride", "Metalaxyl + Mancozeb"]),
            ("cultural_practices", vss
              [ "Improve air circulation",
                "Avoid overhead irrigation",
                "Remove infected plants immediately" ]) ]) ]) ]

/-- `_load_fertilizer_database`. -/
def fertilizers_db : List (String × Val) :=
  [ ("nitrogen_sources", vo
      [ ("urea", vo [("nitrogen_content", vn 46), ("application_time", vs "Split doses")]),
        ("ammonium_sulfate", vo [("nitrogen_content", vn 21), ("sulfur_content", vn 24)]),
        ("calcium_ammonium_nitrate", vo
          [("nitrogen_content", vn 26), ("calcium_content", vn 19)]) ]),
    ("phosphorus_sources", vo
      [ ("single_super_phosphate", vo
          [("phosphorus_content", vn 16), ("calcium_content", vn 20)]),
        ("diammonium_phosphate", vo
          [("phosphorus_content", vn 46), ("nitrogen_content", vn 18)]) ]),
    ("potassium_sources", vo
      [ ("muriate_of_potash", vo [("potassium_content", vn 60)]),
        ("sulfate_of_potash", vo
          [("potassium_content", vn 50), ("sulfur_content", vn 18)]) ]),
    ("organic_fertilizers", vo
      [ ("farmyard_manure", vo
          [("npk", vs "0.5:0.2:0.5"), ("application_rate", vs "10-15 tonnes/ha")]),
        ("vermicompost", vo
          [("npk", vs "1.5:1.0:1.5"), ("application_rate", vs "2-3 tonnes/ha")]),
        ("green_manure", vo [("nitrogen_fixation", vs "50-150 kg N/ha")]) ]) ]

/-- `_load_weather_advice`. -/
def weather_advice_db : List (String × Val) :=
  [ ("monsoon_preparation", vo
      [ ("pre_monsoon", vss
          [ "Prepare drainage channels",
            "Stock quality seeds and fertilizers",
            "Repair farm equipment",
            "Plan crop calendar" ]),
        ("during_monsoon", vss
          [ "Monitor water levels in fields",
            "Watch for pest and disease outbreaks",
            "Ensure proper drainage",
            "Apply fertilizers in split doses" ]),
        ("post_monsoon", vss
          [ "Assess crop damage if any",
            "Plan for winter crops",
            "Store harvested produce properly" ]) ]),
    ("drought_management", vss
      [ "Switch to drought-tolerant varieties",
        "Implement drip irrigation",
        "Apply mulching to conserve moisture",
        "Harvest rainwater for irrigation" ]),
    ("frost_protection", vss
      [ "Cover sensitive crops with cloth",
        "Use smoke to create warm air layer",
        "Irrigate lightly before frost nights",
        "Plant windbreaks around fields" ]) ]

/-- `_load_soil_management`. -/
def soil_management_db : List (String × Val) :=
  [ ("soil_testing", vo
      [ ("frequency", vs "Every 2-3 years"),
        ("parameters", vss ["pH", "N", "P", "K", "organic_matter", "micronutrients"]),
        ("interpretation", vo
          [ ("ph_levels", vo
              [ ("acidic", vs "<6.0 - Add lime"),
                ("neutral", vs "6.0-7.5 - Optimal for most crops"),
                ("alkaline", vs ">7.5 - Add sulfur or organic matter") ]) ]) ]),
    ("organic_matter", vo
      [ ("importance", vs "Improves soil structure, water retention, nutrient availability"),
        ("sources", vss ["Crop residues", "Compost", "Green manure", "Animal manure"]),
        ("target_level", vs "2-3% organic matter content") ]),
    ("conservation_practices", vss
      [ "Crop rotation to maintain soil fertility",
        "Cover cropping to prevent erosion",
        "Contour farming on slopes",
        "No-till or minimal tillage" ]) ]

/-- `_load_irrigation_advice`. -/
def irrigation_db : List (String × Val) :=
  [ ("methods", vo
      [ ("drip_irrigation", vo
          [ ("efficiency", vs "90-95%"),
            ("suitable_crops", vss ["Vegetables", "Fruits", "Spices"]),
            ("advantages", vss
              ["Water saving", "Precise application", "Reduced weed growth"]) ]),
        ("sprinkler_irrigation", vo
          [ ("efficiency", vs "75-85%"),
            ("suitable_crops", vss ["Cereals", "Fodder crops"]),
            ("advantages", vss ["Uniform distribution", "Labor saving"]) ]) ]),
    ("scheduling", vo
      [ ("factors", vss
          ["Crop stage", "Soil type", "Weather conditions", "Water availability"]),
        ("indicators", vss
          ["Soil moisture level", "Plant appearance", "Time since last irrigation"]) ]) ]

/-- `_load_market_info`. -/
def market_info_db : List (String × Val) :=
  [ ("price_trends", vo
      [ ("seasonal_patterns", vs "Prices typically higher during off-season"),
        ("quality_premiums", vs "Premium for organic and certified produce"),
        ("market_channels", vss
          ["Local mandis", "Direct sales", "Contract farming", "Online platforms"]) ]),
    ("post_harvest", vo
      [ ("storage", vs "Proper storage can help get better prices"),
        ("processing", vs "Value addition increases profit margins"),
        ("grading", vs "Uniform grading fetches better prices") ]) ]

/-- `_load_seasonal_advice`. -/
def seasonal_advice_db : List (String × Val) :=
  [ ("kharif_season", vo
      [ ("months", vs "June-November"),
        ("major_crops", vss ["Rice", "Cotton", "Sugarcane", "Maize"]),
        ("preparation", vss
          [ "Prepare fields before monsoon",
            "Arrange quality seeds",
            "Plan fertilizer requirements",
            "Check irrigation facilities" ]) ]),
    ("rabi_season", vo
      [ ("months", vs "November-April"),
        ("major_crops", vss ["Wheat", "Barley", "Peas", "Mustard"]),
        ("preparation", vss
          [ "Ensure adequate irrigation",
            "Plan for frost protection",
            "Arrange winter varieties",
            "Prepare for pest management" ]) ]),
    ("zaid_season", vo
      [ ("months", vs "April-June"),
        ("major_crops", vss ["Fodder", "Vegetables", "Fruits"]),
        ("challenges", vss
          ["High temperature", "Water scarcity", "Pest pressure"]) ]) ]

/-- `_load_best_practices`. -/
def best_practices_db : List (String × Val) :=
  [ ("integrated_pest_management", vss
      [ "Regular field monitoring",
        "Use of beneficial insects",
        "Crop rotation and diversity",
        "Judicious use of pesticides" ]),
    ("sustainable_agriculture", vss
      [ "Soil health maintenance",
        "Water conservation",
        "Biodiversity preservation",
        "Reduced chemical inputs" ]),
    ("precision_agriculture", vss
      [ "GPS-guided farming",
        "Variable rate application",
        "Sensor-based monitoring",
        "Data-driven decisions" ]) ]

/-- The knowledge base structure: `self.knowledge_base` always carries these
ten categories (set once in `__init__`); each category is a dict. -/
structure KB where
  crops : List (String × Val)
  pests : List (String × Val)
  diseases : List (String × Val)
  fertilizers : List (String × Val)
  weather_advice : List (String × Val)
  soil_management : List (String × Val)
  irrigation : List (String × Val)
  market_info : List (String × Val)
  seasonal_advice : List (String × Val)
  best_practices : List (String × Val)

/-- The concrete knowledge base built by `AgriculturalKnowledgeBase.__init__`. -/
def farmoraKB : KB :=
  { crops := crops_db
    pests := pests_db
    diseases := diseases_db
    fertilizers := fertilizers_db
    weather_advice := weather_advice_db
    soil_management := soil_management_db
    irrigation := irrigation_db
    market_info := market_info_db
    seasonal_advice := seasonal_advice_db
    best_practices := best_practices_db }

/-- `self.knowledge_base.items()` in dict insertion order. -/
def kbItems (kb : KB) : List (String × List (String × Val)) :=
  [ ("crops", kb.crops), ("pests", kb.pests), ("diseases", kb.diseases),
    ("fertilizers", kb.fertilizers), ("weather_advice", kb.weather_advice),
    ("soil_management", kb.soil_management), ("irrigation", kb.irrigation),
    ("market_info", kb.market_info), ("seasonal_advice", kb.seasonal_advice),
    ("best_practices", kb.best_practices) ]

/-! ## Knowledge base operations -/

/-- Python `str.lower()` on a `String`. -/
def pyLowerS (s : String) : String := String.mk (lowerL s.toList)

/-- `AgriculturalKnowledgeBase.get_crop_info`: a read returning the entry or
an empty dict; the second component of the pair is the knowledge base after the
call (the method performs no assignment, so it is returned unchanged). -/
def get_crop_info (kb : KB) (crop_name : String) : Val × KB :=
  (((kb.crops).lookup (pyLowerS crop_name)).getD (Val.obj []), kb)

/-- `AgriculturalKnowledgeBase.get_pest_info`. -/
def get_pest_info (kb : KB) (pest_name : String) : Val × KB :=
  (((kb.pests).lookup (pyLowerS pest_name)).getD (Val.obj []), kb)

/-- `AgriculturalKnowledgeBase.get_disease_info`. -/
def get_disease_info (kb : KB) (disease_name : String) : Val × KB :=
  (((kb.diseases).lookup (pyLowerS disease_name)).getD (Val.obj []), kb)

/-- `AgriculturalKnowledgeBase._search_in_value`: substring search of the
query inside `str(...)` of dict values / list items / the string itself;
other values (ints) yield `False`. -/
def search_in_value (query : List Char) : Val → Bool
  | .obj fs => fs.any (fun kv => containsSub query (lowerL (chars (pyStrTop kv.2))))
  | .arr xs => xs.any (fun item => containsSub query (lowerL (chars (pyStrTop item))))
  | .s x => containsSub query (lowerL (chars x))
  | .n _ => false

/-- `AgriculturalKnowledgeBase._calculate_relevance`. -/
def calculate_relevance (query : List Char) (key : String) (value : Val) : ℚ :=
  let keyScore : ℚ :=
    if query = lowerL (chars key) then 100
    else if containsSub query (lowerL (chars key)) then 50
    else 0
  let contentStr := lowerL (chars (pyStrTop value))
  keyScore + 10 * ((pySplitWs query).filter (fun w => containsSub w contentStr)).length

/-- A search result record of `search_knowledge`. -/
structure SearchHit where
  category : String
  key : String
  data : Val
  relevance_score : ℚ
deriving Repr

/-- `AgriculturalKnowledgeBase.search_knowledge`: collect matching entries of
the requested categories (all of them when `category` is `None`), sort them
by relevance descending (Python `list.sort` is stable; `insertionSort` with
`≥` on scores is stable in the same way) and keep the top 10.  The knowledge
base itself is returned unchanged. -/
def search_knowledge (kb : KB) (query : String) (category : Option String) :
    List SearchHit × KB :=
  let ql := lowerL (chars query)
  let cats : List String :=
    match category with
    | some c => [c]
    | none => (kbItems kb).map (fun it => it.1)
  let results : List SearchHit :=
    cats.flatMap (fun cat =>
      match (kbItems kb).lookup cat with
      | none => []
      | some categoryData =>
          categoryData.filterMap (fun kv =>
            if containsSub ql (lowerL (chars kv.1)) || search_in_value ql kv.2 then
              some { category := cat, key := kv.1, data := kv.2,
                     relevance_score := calculate_relevance ql kv.1 kv.2 }
            else none))
  ((results.insertionSort
      (fun a b => b.relevance_score ≤ a.relevance_score)).take 10, kb)

/-- `AgriculturalKnowledgeBase.get_seasonal_advice`.  The `month=None`
default reads `datetime.now().month`, modelled by the explicit `nowMonth`
parameter; the three season records are read with bracket access on the
concrete dictionary. -/
def get_seasonal_advice (kb : KB) (nowMonth : Int) (month : Option Int) :
    Val × KB :=
  let m := month.getD nowMonth
  if m ∈ ([6, 7, 8, 9, 10, 11] : List Int) then
    (((kb.seasonal_advice).lookup "kharif_season").getD (Val.obj []), kb)
  else if m ∈ ([11, 12, 1, 2, 3, 4] : List Int) then
    (((kb.seasonal_advice).lookup "rabi_season").getD (Val.obj []), kb)
  else
    (((kb.seasonal_advice).lookup "zaid_season").getD (Val.obj []), kb)

/-! ## Response generation (`IntelligentResponseEngine`)

The generators build the reply from the knowledge base.  The field
`self.knowledge_base` of the engine is its own `AgriculturalKnowledgeBase()` instance,
identical to `farmoraKB`; the functions below take it as a parameter. -/

/-- The image analysis dict handed to the generators (only these two keys
are read by them). -/
structure ImgAnalysis where
  predicted_class : String
  confidence : ℚ
deriving Repr

/-- A generated response dict.  Keys that a given generator does not set are
modelled by their defaults (`priority`, `suggestions` and
`follow_up_questions` are only set by `generate_response` itself or by the
fallback; `detected_pest` only by the pest generator). -/
structure Resp where
  message : String
  recommendations : List String
  type : String
  confidence : ℚ
  detected_pest : Option String := none
  priority : String := ""
  suggestions : List String := []
  follow_up_questions : List String := []
deriving Repr

/-- Python percent formatting of a non-negative probability with one
decimal, at rational precision (round half to even on the third decimal of
the percentage). -/
def pyPct1 (x : ℚ) : String :=
  let m : ℚ := x * 1000
  let f : Int := ⌊m⌋
  let r : ℚ := m - f
  let n : Int := if r < 1/2 then f else if 1/2 < r then f + 1
    else if f % 2 = 0 then f else f + 1
  toString (n / 10) ++ "." ++ toString (n % 10) ++ "%"

/-- `", ".join` over the items of a list value, via Python `str`. -/
def joinItems (sep : String) (v : Val) : String :=
  pyJoin sep (v.items.map pyStrTop)

/-- Python `enumerate` starting at 1, rendered as numbered lines. -/
def enumLines (xs : List Val) : List String :=
  (List.range xs.length).zip xs |>.map
    (fun p => toString (p.1 + 1) ++ ". " ++ pyStrTop p.2)

/-- The `if pest_info:` block of `_generate_pest_response`: the about/
identification/symptoms/management paragraphs and the prevention
recommendations. -/
def pest_info_block (dp : String) (pest_info : Val) : List String × List String :=
  let aboutParts :=
    [ "📋 **About " ++ pyTitle dp ++ ":**",
      "Scientific Name: *" ++ pyStrTop (pest_info.get "scientific_name" (vs "N/A")) ++ "*",
      "" ]
  let identification := pest_info.get "identification" (vo [])
  let identParts :=
    if identification.truthy then
      [ "🔬 **Identification Features:**",
        "• Size: " ++ pyStrTop (identification.get "size" (vs "Variable")),
        "• Color: " ++ pyStrTop (identification.get "color" (vs "Variable")),
        "• Location: " ++ pyStrTop (identification.get "location" (vs "Various parts")),
        "" ]
    else []
  let symptoms := pest_info.get "damage_symptoms" (va [])
  let symptomParts :=
    if symptoms.truthy then
      "⚠️ **Damage Symptoms:**" ::
        (symptoms.items.take 4).map (fun s => "• " ++ pyStrTop s) ++ [""]
    else []
  let management := pest_info.get "management" (vo [])
  let organic := management.get "organic" (va [])
  let biological := management.get "biological" (va [])
  let chemical := management.get "chemical" (va [])
  let mgmtParts :=
    if management.truthy then
      ["🎯 **Treatment Recommendations:**"]
      ++ (if organic.truthy then
            "**🌿 Organic Methods:**" :: enumLines (organic.items.take 3) ++ [""]
          else [])
      ++ (if biological.truthy then
            "**🐞 Biological Control:**" :: enumLines (biological.items.take 3) ++ [""]
          else [])
      ++ (if chemical.truthy then
            "**⚗️ Chemical Control (if necessary):**" :: enumLines (chemical.items.take 2) ++ [""]
          else [])
    else []
  let prevention := pest_info.get "prevention" (va [])
  let recs :=
    if prevention.truthy then
      (prevention.items.take 4).map (fun tip => "🛡️ " ++ pyStrTop tip)
    else []
  (aboutParts ++ identParts ++ symptomParts ++ mgmtParts, recs)

/-- Common tail of `_generate_pest_response` for the two branches that found
a pest name (`headParts` are the AI-analysis lines of the image branch). -/
def pest_response_finish (headParts : List String) (dp : String) (pest_info : Val)
    (conf : ℚ) : Resp :=
  let block := if pest_info.truthy then pest_info_block dp pest_info else ([], [])
  { message := pyJoin "\n" (headParts ++ block.1)
    recommendations := block.2
    type := "pest_identification"
    detected_pest := some dp
    confidence := conf }

/-- `IntelligentResponseEngine._generate_pest_response`.  With an image
analysis the confidence comes from the model; with only a text entity it is the
literal `0.9`; with neither, the fixed general-advice payload is returned. -/
def generate_pest_response (kb : KB) (entities : Entities)
    (image_analysis : Option ImgAnalysis) : Resp :=
  match image_analysis with
  | some ia =>
      let dp := ia.predicted_class
      let headParts :=
        [ "🔍 **AI Analysis Results:**",
          "Detected Pest: **" ++ pyTitle dp ++ "**",
          "Confidence: **" ++ pyPct1 ia.confidence ++ "**",
          "" ]
      pest_response_finish headParts dp (get_pest_info kb dp).1 ia.confidence
  | none =>
      match entities.pests with
      | dp :: _ => pest_response_finish [] dp (get_pest_info kb dp).1 (9/10)
      | [] =>
          { message := pyJoin "\n"
              [ "🐛 **General Pest Management Advice:**",
                "Without specific pest identification, here are general IPM practices:" ]
            recommendations :=
              [ "🔍 **Monitor regularly** - Check plants weekly for early signs",
                "🌱 **Use resistant varieties** - Plant pest-resistant crop varieties",
                "🏡 **Maintain field hygiene** - Remove crop residues and weeds",
                "🐞 **Encourage beneficial insects** - Preserve natural predators",
                "💧 **Proper irrigation** - Avoid water stress which attracts pests",
                "🔄 **Crop rotation** - Break pest life cycles with different crops" ]
            type := "pest_general"
            confidence := 4/5 }

/-- `IntelligentResponseEngine._generate_crop_response`. -/
def generate_crop_response (kb : KB) (entities : Entities) : Resp :=
  match entities.crops with
  | crop :: _ =>
      let crop_info := (get_crop_info kb crop).1
      let npk := crop_info.get "fertilizer_npk" (vs "")
      let yield_info := crop_info.get "yield_potential" (vs "")
      let parts :=
        if crop_info.truthy then
          [ "🌾 **" ++ pyTitle crop ++ " Cultivation Guide:**",
            "Scientific Name: *" ++ pyStrTop (crop_info.get "scientific_name" (vs "N/A")) ++ "*",
            "",
            "📊 **Basic Information:**",
            "• Growth Duration: " ++ pyStrTop (crop_info.get "growth_duration" (vs "N/A")),
            "• Planting Season: " ++ joinItems ", " (crop_info.get "planting_season" (va [vs "N/A"])),
            "• Soil Type: " ++ joinItems ", " (crop_info.get "soil_type" (va [vs "N/A"])),
            "• pH Range: " ++ pyStrTop (crop_info.get "ph_range" (vs "N/A")),
            "",
            "🌱 **Planting Guidelines:**",
            "• Seed Rate: " ++ pyStrTop (crop_info.get "seed_rate" (vs "N/A")),
            "• Spacing: " ++ pyStrTop (crop_info.get "spacing" (vs "N/A")),
            "• Temperature: " ++ pyStrTop (crop_info.get "temperature" (vs "N/A")),
            "" ]
          ++ (if npk.truthy then
                ["🌿 **Fertilizer Program:**", "• NPK Ratio: " ++ pyStrTop npk, ""]
              else [])
          ++ (if yield_info.truthy then
                ["📈 **Expected Yield:** " ++ pyStrTop yield_info, ""]
              else [])
        else []
      let recs :=
        if crop_info.truthy then
          [ "🌡️ Maintain optimal temperature: " ++ pyStrTop (crop_info.get "temperature" (vs "N/A")),
            "💧 Ensure proper drainage and irrigation",
            "🧪 Test soil pH regularly (optimal: " ++ pyStrTop (crop_info.get "ph_range" (vs "N/A")) ++ ")",
            "🛡️ Watch for common pests: " ++
              pyJoin ", " (((crop_info.get "common_pests" (va [])).items.take 3).map pyStrTop),
            "📅 Plan harvest at: " ++ pyStrTop (crop_info.get "harvesting" (vs "maturity stage")) ]
        else []
      { message := pyJoin "\n" parts
        recommendations := recs
        type := "crop_cultivation"
        confidence := 19/20 }
  | [] =>
      { message := pyJoin "\n"
          [ "🌾 **General Crop Cultivation Advice:**",
            "Here are fundamental principles for successful crop cultivation:",
            "" ]
        recommendations :=
          [ "🔍 Choose appropriate variety for your climate and soil",
            "🧪 Conduct soil testing before planting",
            "💧 Plan irrigation based on crop water requirements",
            "🌿 Follow balanced fertilization program",
            "🛡️ Implement integrated pest management",
            "📅 Time operations according to crop calendar" ]
        type := "crop_cultivation"
        confidence := 19/20 }

/-- `IntelligentResponseEngine._generate_weather_response` (reads the
current month through `get_seasonal_advice`). -/
def generate_weather_response (kb : KB) (nowMonth : Int) : Resp :=
  let seasonal_advice := (get_seasonal_advice kb nowMonth none).1
  let major_crops := seasonal_advice.get "major_crops" (va [])
  let preparation := seasonal_advice.get "preparation" (va [])
  let parts :=
    [ "🌦️ **Weather & Seasonal Farming Advice:**", "" ]
    ++ (if seasonal_advice.truthy then
          [ "**Current Season (" ++ pyStrTop (seasonal_advice.get "months" (vs "Current season")) ++ "):**" ]
          ++ (if major_crops.truthy then
                [ "🌾 **Recommended Crops:** " ++ joinItems ", " major_crops, "" ]
              else [])
          ++ (if preparation.truthy then
                "📋 **Season Preparation:**" :: enumLines preparation.items ++ [""]
              else [])
        else [])
  { message := pyJoin "\n" parts
    recommendations :=
      [ "📱 Monitor weather forecasts daily",
        "💧 Prepare drainage systems for heavy rains",
        "🌡️ Protect crops during extreme temperatures",
        "💨 Install windbreaks for storm protection",
        "🌊 Harvest rainwater for irrigation",
        "📊 Adjust fertilizer timing based on rainfall" ]
    type := "weather_advice"
    confidence := 9/10 }

/-- `IntelligentResponseEngine._generate_disease_response`. -/
def generate_disease_response (kb : KB) (entities : Entities)
    (image_analysis : Option ImgAnalysis) : Resp :=
  let headParts :=
    match image_analysis with
    | some ia =>
        [ "🔬 **AI Disease Analysis:**",
          "Detected Issue: **" ++ pyTitle ia.predicted_class ++ "**",
          "Confidence: **" ++ pyPct1 ia.confidence ++ "**",
          "" ]
    | none => []
  match entities.diseases with
  | dn :: _ =>
      let disease_info := (get_disease_info kb dn).1
      let body :=
        if disease_info.truthy then
          let symptoms := disease_info.get "symptoms" (va [])
          let management := disease_info.get "management" (vo [])
          let resistant_vars := management.get "resistant_varieties" (va [])
          let fungicides := management.get "fungicides" (va [])
          let cultural := management.get "cultural_practices" (va [])
          [ "🦠 **About " ++ pyTitle dn ++ ":**",
            "Pathogen: *" ++ pyStrTop (disease_info.get "pathogen" (vs "N/A")) ++ "*",
            "" ]
          ++ (if symptoms.truthy then
                "⚠️ **Disease Symptoms:**" ::
                  (symptoms.items.take 4).map (fun s => "• " ++ pyStrTop s) ++ [""]
              else [])
          ++ (if management.truthy then
                ["💊 **Disease Management:**"]
                ++ (if resistant_vars.truthy then
                      ["**🌱 Resistant Varieties:** " ++ joinItems ", " resistant_vars]
                    else [])
                ++ (if fungicides.truthy then
                      ["**🧪 Fungicides:** " ++ pyJoin ", " ((fungicides.items.take 3).map pyStrTop)]
                    else [])
                ++ (if cultural.truthy then
                      "**🏡 Cultural Practices:**" ::
                        (cultural.items.take 3).map (fun p => "• " ++ pyStrTop p)
                    else [])
              else [])
        else []
      { message := pyJoin "\n" (headParts ++ body)
        recommendations := []
        type := "disease_identification"
        confidence := 17/20 }
  | [] =>
      { message := pyJoin "\n" (headParts ++
          [ "🦠 **General Disease Management:**",
            "For effective disease prevention and control:" ])
        recommendations :=
          [ "🌱 Use certified, disease-free seeds",
            "🔄 Practice crop rotation to break disease cycles",
            "💧 Ensure proper drainage to avoid waterlogging",
            "🌬️ Maintain good air circulation between plants",
            "🧹 Remove and destroy infected plant material",
            "⏰ Apply preventive fungicides during favorable conditions" ]
        type := "disease_identification"
        confidence := 17/20 }

/-- `IntelligentResponseEngine._generate_irrigation_response`. -/
def generate_irrigation_response (kb : KB) : Resp :=
  let irrigation_info := Val.obj kb.irrigation
  let methods := irrigation_info.get "methods" (vo [])
  let parts :=
    [ "💧 **Irrigation Management Guide:**", "" ]
    ++ (if methods.truthy then
          "**🚰 Irrigation Methods:**" ::
            methods.fields.flatMap (fun md =>
              [ "• **" ++ pyTitle (pyReplaceChar '_' ' ' md.1) ++ "**: " ++
                  pyStrTop (md.2.get "efficiency" (vs "N/A")) ++ " efficiency",
                "  Suitable for: " ++ joinItems ", " (md.2.get "suitable_crops" (va [])) ])
          ++ [""]
        else [])
  { message := pyJoin "\n" parts
    recommendations :=
      [ "📊 Monitor soil moisture levels regularly",
        "⏰ Schedule irrigation based on crop growth stage",
        "💰 Choose water-efficient irrigation methods",
        "🌡️ Adjust watering frequency based on weather",
        "🔧 Maintain irrigation equipment properly",
        "📝 Keep records of water usage and crop response" ]
    type := "irrigation_advice"
    confidence := 9/10 }

/-- `IntelligentResponseEngine._generate_market_response`. -/
def generate_market_response (kb : KB) : Resp :=
  let market_info := Val.obj kb.market_info
  let price_trends := market_info.get "price_trends" (vo [])
  let parts :=
    [ "💰 **Market Analysis & Pricing Guide:**", "" ]
    ++ (if price_trends.truthy then
          "📈 **Market Insights:**" ::
            price_trends.fields.filterMap (fun kv =>
              match kv.2 with
              | .s x => some ("• " ++ pyTitle (pyReplaceChar '_' ' ' kv.1) ++ ": " ++ x)
              | .arr xs => some ("• " ++ pyTitle (pyReplaceChar '_' ' ' kv.1) ++ ": " ++
                  pyJoin ", " (xs.map pyStrTop))
              | _ => none)
          ++ [""]
        else [])
  { message := pyJoin "\n" parts
    recommendations :=
      [ "📊 Monitor daily market prices for your crops",
        "📦 Focus on quality and proper grading",
        "⏰ Time your sales to avoid price crashes",
        "🤝 Consider contract farming for price stability",
        "📱 Use mobile apps for real-time price information",
        "💼 Explore value-addition opportunities" ]
    type := "market_advice"
    confidence := 4/5 }

/-- `IntelligentResponseEngine._generate_soil_response`. -/
def generate_soil_response (kb : KB) : Resp :=
  let soil_info := Val.obj kb.soil_management
  let soil_testing := soil_info.get "soil_testing" (vo [])
  let organic_matter := soil_info.get "organic_matter" (vo [])
  let parts :=
    [ "🌍 **Soil Health Management:**", "" ]
    ++ (if soil_testing.truthy then
          [ "🧪 **Soil Testing Guidelines:**",
            "• Test Frequency: " ++ pyStrTop (soil_testing.get "frequency" (vs "N/A")),
            "• Parameters: " ++ joinItems ", " (soil_testing.get "parameters" (va [])),
            "" ]
        else [])
    ++ (if organic_matter.truthy then
          [ "🌱 **Organic Matter Management:**",
            "• Importance: " ++ pyStrTop (organic_matter.get "importance" (vs "N/A")),
            "• Target Level: " ++ pyStrTop (organic_matter.get "target_level" (vs "N/A")),
            "" ]
        else [])
  { message := pyJoin "\n" parts
    recommendations :=
      [ "🧪 Test soil every 2-3 years for nutrient status",
        "🌾 Add organic matter through crop residues and compost",
        "🔄 Practice crop rotation to maintain fertility",
        "🛡️ Prevent soil erosion with cover crops",
        "⚖️ Balance soil pH for optimal nutrient availability",
        "💧 Maintain proper soil moisture levels" ]
    type := "soil_management"
    confidence := 9/10 }

/-- `IntelligentResponseEngine._generate_fertilizer_response`. -/
def generate_fertilizer_response (kb : KB) : Resp :=
  let fertilizer_info := Val.obj kb.fertilizers
  let nitrogen := fertilizer_info.get "nitrogen_sources" (vo [])
  let organic := fertilizer_info.get "organic_fertilizers" (vo [])
  let parts :=
    [ "🌿 **Fertilizer Management Guide:**", "" ]
    ++ (if nitrogen.truthy then
          "**🟦 Nitrogen Sources:**" ::
            (nitrogen.fields.take 3).map (fun fi =>
              "• " ++ pyTitle fi.1 ++ ": " ++
                pyStrTop (fi.2.get "nitrogen_content" (vn 0)) ++ "% N")
          ++ [""]
        else [])
    ++ (if organic.truthy then
          "**🌱 Organic Fertilizers:**" ::
            organic.fields.map (fun fi =>
              "• " ++ pyTitle fi.1 ++ ": NPK " ++
                pyStrTop (fi.2.get "npk" (vs "N/A")) ++ ", Rate: " ++
                pyStrTop (fi.2.get "application_rate" (vs "N/A")))
          ++ [""]
        else [])
  { message := pyJoin "\n" parts
    recommendations :=
      [ "🧪 Conduct soil test before fertilizer application",
        "📅 Apply fertilizers in split doses for better efficiency",
        "💧 Ensure adequate moisture for nutrient uptake",
        "🌿 Combine organic and inorganic sources",
        "⏰ Time application with crop growth stages",
        "🔄 Maintain records of fertilizer use" ]
    type := "fertilizer_advice"
    confidence := 9/10 }

/-- `IntelligentResponseEngine._generate_general_response`: search the
knowledge base with the original query and render the top hit, or the fixed
general-guidance text when nothing matches. -/
def generate_general_response (kb : KB) (analysis : Analysis) : Resp :=
  let search_results := (search_knowledge kb (String.mk analysis.original_query) none).1
  match search_results with
  | top :: _ =>
      let dataParts :=
        match top.data with
        | .obj fs =>
            (fs.take 5).filterMap (fun kv =>
              match kv.2 with
              | .s x => some ("• " ++ pyTitle kv.1 ++ ": " ++ x)
              | .n k => some ("• " ++ pyTitle kv.1 ++ ": " ++ toString k)
              | .arr xs => some ("• " ++ pyTitle kv.1 ++ ": " ++
                  pyJoin ", " ((xs.take 3).map pyStrTop))
              | .obj _ => none)
        | .arr xs => "Key points:" :: (xs.take 5).map (fun item => "• " ++ pyStrTop item)
        | other => [pyStrTop other]
      { message := pyJoin "\n"
          ([ "🧠 **Agricultural Knowledge - " ++ pyTitle top.category ++ ":**",
             "",
             "**" ++ pyTitle top.key ++ ":**" ] ++ dataParts)
        recommendations :=
          [ "📚 Consult local agricultural extension services",
            "🧪 Conduct relevant tests (soil, water, plant tissue)",
            "📱 Use agricultural apps for monitoring",
            "🤝 Connect with other farmers in your area",
            "📊 Keep detailed farm records",
            "🎓 Attend agricultural training programs" ]
        type := "general_advice"
        confidence := 7/10 }
  | [] =>
      { message := pyJoin "\n"
          [ "🌾 **General Farming Guidance:**",
            "I" ++ sqc ++ "m here to help with your agricultural needs! Here are some general best practices:",
            "" ]
        recommendations :=
          [ "🔍 Regular field monitoring and observation",
            "💧 Efficient water management and conservation",
            "🌿 Integrated nutrient management",
            "🛡️ Preventive pest and disease management",
            "📊 Record keeping and data analysis",
            "🌱 Sustainable farming practices" ]
        type := "general_advice"
        confidence := 7/10 }

/-- `IntelligentResponseEngine._generate_suggestions` (the `entities`
argument is unused by the source). -/
def generate_suggestions (intent : String) (_entities : Entities) : List String :=
  if intent = "pest_identification" then
    [ "Take clear photos of affected plants for better diagnosis",
      "Monitor pest population levels regularly",
      "Consider biological control methods first",
      "Apply treatments during early morning or evening" ]
  else if intent = "crop_cultivation" then
    [ "Plan crop rotation for next season",
      "Test soil before planting",
      "Select climate-appropriate varieties",
      "Prepare irrigation schedule" ]
  else if intent = "weather_related" then
    [ "Set up weather monitoring alerts",
      "Prepare contingency plans for extreme weather",
      "Adjust planting dates based on weather patterns",
      "Install protective structures if needed" ]
  else
    [ "Keep detailed farm records",
      "Consult local agricultural experts",
      "Stay updated with latest farming techniques",
      "Join farmer groups for knowledge sharing" ]

/-- `IntelligentResponseEngine._generate_follow_up_questions`. -/
def generate_follow_up_questions (intent : String) (_entities : Entities) :
    List String :=
  if intent = "pest_identification" then
    [ "What crop is affected by this pest?",
      "How long have you noticed this problem?",
      "What is the extent of damage (percentage of crop affected)?",
      "Have you tried any treatments so far?" ]
  else if intent = "crop_cultivation" then
    [ "What is your farm size and location?",
      "What soil type do you have?",
      "Do you have irrigation facilities?",
      "What" ++ sqc ++ "s your target market for this crop?" ]
  else if intent = "fertilizer_advice" then
    [ "Have you conducted a soil test recently?",
      "What crop are you planning to fertilize?",
      "What" ++ sqc ++ "s your budget for fertilizers?",
      "Do you prefer organic or chemical fertilizers?" ]
  else
    [ "What specific aspect would you like to know more about?",
      "Do you need help with any other farming topics?",
      "Would you like location-specific advice?",
      "Are there any other crops you" ++ sqc ++ "re planning to grow?" ]

/-- `IntelligentResponseEngine._generate_fallback_response`: the fixed
payload returned when a generator raises. -/
def generate_fallback_response (_analysis : Analysis) : Resp :=
  { message := "I understand you need agricultural advice! While I" ++ sqc ++
      "m processing your specific question, here are some general farming tips that might help:"
    recommendations :=
      [ "🌱 Monitor your crops daily for early problem detection",
        "💧 Maintain proper irrigation and drainage",
        "🌿 Follow integrated pest management practices",
        "🧪 Test your soil regularly for optimal nutrition",
        "📚 Stay updated with latest agricultural techniques",
        "🤝 Connect with local agricultural extension services" ]
    type := "fallback"
    confidence := 1/2
    suggestions :=
      [ "Try rephrasing your question with more specific details",
        "Include information about your crop, location, or specific problem",
        "Upload an image if you" ++ sqc ++ "re asking about pest or disease identification" ]
    follow_up_questions :=
      [ "What specific farming challenge are you facing?",
        "Which crop or aspect of farming do you need help with?",
        "Can you provide more details about your situation?" ] }

/-- The body of the `try` block of `generate_response`: intent dispatch followed
by the urgency prefix and the suggestion/follow-up enrichment. -/
def generate_response_body (kb : KB) (nowMonth : Int) (analysis : Analysis)
    (image_analysis : Option ImgAnalysis) : Resp :=
  let response :=
    if analysis.intent = "pest_identification" then
      generate_pest_response kb analysis.entities image_analysis
    else if analysis.intent = "disease_identification" then
      generate_disease_response kb analysis.entities image_analysis
    else if analysis.intent = "crop_cultivation" then
      generate_crop_response kb analysis.entities
    else if analysis.intent = "fertilizer_advice" then
      generate_fertilizer_response kb
    else if analysis.intent = "irrigation_advice" then
      generate_irrigation_response kb
    else if analysis.intent = "weather_related" then
      generate_weather_response kb nowMonth
    else if analysis.intent = "market_prices" then
      generate_market_response kb
    else if analysis.intent = "soil_management" then
      generate_soil_response kb
    else
      generate_general_response kb analysis
  let response :=
    if analysis.urgency = "high" then
      { response with
        message := "⚠️ **URGENT ACTION NEEDED** ⚠️\n\n" ++ response.message
        priority := "high" }
    else if analysis.urgency = "medium" then { response with priority := "medium" }
    else { response with priority := "low" }
  { response with
    suggestions := generate_suggestions analysis.intent analysis.entities
    follow_up_questions := generate_follow_up_questions analysis.intent analysis.entities }

/-- `IntelligentResponseEngine.generate_response` with its `try/except`:
`bodyOutcome` is the outcome of the `try` body (`generate_response_body`
when nothing raises); an exception anywhere in the body is converted into
the fixed fallback payload. -/
def generate_response_caught (analysis : Analysis)
    (bodyOutcome : Except String Resp) : Resp :=
  match bodyOutcome with
  | .ok r => r
  | .error _ => generate_fallback_response analysis

/-- `generate_response` on the non-raising path. -/
def generate_response (kb : KB) (nowMonth : Int) (analysis : Analysis)
    (image_analysis : Option ImgAnalysis) : Resp :=
  generate_response_caught analysis
    (.ok (generate_response_body kb nowMonth analysis image_analysis))

/-! ## Conversation sessions (`advanced_advisory_api.py`)

`conversation_sessions` is a process-wide dict from user id to session
record, modelled as an association list in insertion order.  Timestamps are
seconds (`datetime.now()` as an integer clock). -/

/-- One entry of the `conversation_history` of a session. -/
structure HistEntry where
  timestamp : Int
  user_message : String
  ai_response : String
  intent : String
  confidence : ℚ
deriving Repr, DecidableEq

/-- The reply excerpt stored in the history: the first 200 characters of
the reply message followed by three dots when it is longer than 200. -/
def truncate_response (m : String) : String :=
  if m.toList.length > 200 then String.mk (m.toList.take 200) ++ "..." else m

/-- A conversation session record. -/
structure SessionRec where
  session_id : String
  created_at : Int
  last_active : Int
  message_count : Nat
  conversation_history : List HistEntry
deriving Repr, DecidableEq

/-- The process-wide session mapping. -/
abbrev Sessions := List (String × SessionRec)

/-- Python `l[-n:]` for `n > 0`. -/
def lastN {α : Type} (n : Nat) (l : List α) : List α := l.drop (l.length - n)

/-- The fresh session created on the first message of a user
(`str(uuid.uuid4())` is passed in as `sid`). -/
def fresh_session (sid : String) (now : Int) : SessionRec :=
  { session_id := sid
    created_at := now
    last_active := now
    message_count := 0
    conversation_history := [] }

/-- The per-call session mutation of `process_query`: refresh
`last_active`, bump `message_count`, and — when the `try` body reaches the
history append (`okToAppend`) — append the new entry and truncate the
history to its last 20 entries.  All fallible pipeline steps occur before
the append, and no statement between the append and the truncation can
raise, so an exception leaves the history untouched. -/
def update_session (now : Int) (entry : HistEntry) (okToAppend : Bool)
    (s : SessionRec) : SessionRec :=
  let s := { s with last_active := now, message_count := s.message_count + 1 }
  if okToAppend then
    let h := s.conversation_history ++ [entry]
    { s with conversation_history := if h.length > 20 then lastN 20 h else h }
  else s

/-- Effect of one `process_query` call on `conversation_sessions`: create
the session when absent (Python dicts append new keys at the end), then
update it. -/
def process_query_sessions (st : Sessions) (user_id sid : String) (now : Int)
    (entry : HistEntry) (okToAppend : Bool) : Sessions :=
  let st1 := if (st.lookup user_id).isSome then st
             else st ++ [(user_id, fresh_session sid now)]
  st1.map (fun kv =>
    if kv.1 = user_id then (kv.1, update_session now entry okToAppend kv.2) else kv)

/-- `FarmoraAIAdvisor.__init__`: `self.session_timeout = 3600`. -/
def session_timeout : Int := 3600

/-- The `seconds` attribute of a Python `timedelta` of `delta` whole
seconds: the within-day seconds component, i.e. `delta mod 86400`
(`timedelta` normalises so that `0 <= seconds < 86400`). -/
def timedelta_seconds (delta : Int) : Int := delta % 86400

/-- `cleanup_old_sessions`: delete every session whose
`(now - last_active).seconds` exceeds the timeout.  Note the source reads
`.seconds` (the within-day component), not `.total_seconds()`. -/
def cleanup_old_sessions (st : Sessions) (now : Int) : Sessions :=
  st.filter (fun kv => !(timedelta_seconds (now - kv.2.last_active) > session_timeout))

/-- Operations that touch the session mapping. -/
inductive SessOp where
  | query (user_id sid : String) (now : Int) (entry : HistEntry) (okToAppend : Bool)
  | sweep (now : Int)

/-- Apply one session operation. -/
def apply_sess_op (st : Sessions) : SessOp → Sessions
  | .query uid sid now entry ok => process_query_sessions st uid sid now entry ok
  | .sweep now => cleanup_old_sessions st now

/-- Run a sequence of session operations from a state. -/
def run_sess_ops (st : Sessions) : List SessOp → Sessions
  | [] => st
  | op :: ops => run_sess_ops (apply_sess_op st op) ops

/-! ## `process_query` result envelope (`try/except` policy) -/

/-- The fixed `fallback_response` dict of the `except` branch of `process_query`. -/
def process_query_fallback : Resp :=
  { message := "I apologize for the technical difficulty. Let me provide some general agricultural guidance that might help:"
    recommendations :=
      [ "🌱 Monitor your crops daily for early problem detection",
        "💧 Ensure adequate but not excessive irrigation",
        "🌿 Follow integrated pest management practices",
        "🧪 Test soil regularly and adjust fertilization accordingly",
        "📚 Stay connected with local agricultural extension services" ]
    type := "error_fallback"
    confidence := 1/2 }

/-- The dictionary returned by `process_query`. -/
structure QueryResult where
  success : Bool
  response : Option Resp := none
  error : Option String := none
  fallback_response : Option Resp := none
deriving Repr

/-- `FarmoraAIAdvisor.process_query` as a function of the outcome of its
`try` body: a raised exception anywhere in the pipeline is converted into a
`success = False` envelope carrying the fixed fallback payload; nothing is
re-raised. -/
def process_query_result (bodyOutcome : Except String Resp) : QueryResult :=
  match bodyOutcome with
  | .ok r => { success := true, response := some r }
  | .error e =>
      { success := false
        error := some e
        fallback_response := some process_query_fallback }

/-! ## Prediction utilities (`utils/prediction_utils.py`, `config.py`) -/

/-- `PEST_CLASSES` from `config/config.py` (identical to `pest_classes` of
`simple_api.py`). -/
def PEST_CLASSES : List String :=
  [ "aphids", "armyworm", "beetles", "bollworm", "caterpillars",
    "cutworm", "grasshopper", "leafhopper", "mites", "scale_insects",
    "thrips", "whitefly", "wireworm", "healthy_crop", "unknown_pest" ]

/-- Element access in a prediction vector (`predictions[0][i]`). -/
def nthQ (v : List ℚ) (i : Nat) : ℚ := v.getD i 0

/-- Accumulator loop of `np.argmax`: keep the first index attaining the
running maximum (strict improvement moves the best index). -/
def argmaxFrom : List ℚ → Nat → Nat → ℚ → Nat
  | [], _, best, _ => best
  | x :: xs, i, best, bv =>
      if bv < x then argmaxFrom xs (i + 1) i x else argmaxFrom xs (i + 1) best bv

/-- `np.argmax`: index of the first maximal element (0 on empty input). -/
def np_argmax (v : List ℚ) : Nat :=
  match v with
  | [] => 0
  | x :: xs => argmaxFrom xs 1 0 x

/-- `np.argsort` ascending.  For arrays of fewer than 17 elements the numpy
introsort runs its stable insertion sort, so equal values keep their index
order; `List.insertionSort` with `≤` on the looked-up values is stable in
the same way. -/
def np_argsort (v : List ℚ) : List Nat :=
  List.insertionSort (fun i j => nthQ v i ≤ nthQ v j) (List.range v.length)

/-- One entry of `top_predictions` (the Python key `class` is spelled
`cls`, as `class` is a Lean keyword). -/
structure TopPred where
  cls : String
  confidence : ℚ
  index : Int
deriving Repr, DecidableEq

/-- `np.argsort(predictions[0])[::-1][:3]` and the record built per index. -/
def top_predictions_of (class_names : List String) (v : List ℚ) : List TopPred :=
  ((np_argsort v).reverse.take 3).map (fun i =>
    { cls := class_names.getD i ""
      confidence := nthQ v i
      index := (i : Int) })

/-- The pest information table of `PestPredictor._get_pest_info`. -/
def pu_pest_database : List (String × Val) :=
  [ ("aphids", vo
      [ ("description", vs "Small soft-bodied insects that feed on plant juices"),
        ("damage", vs "Yellowing leaves, stunted growth, honeydew secretion"),
        ("treatment", vss
          [ "Use insecticidal soap spray",
            "Introduce beneficial insects like ladybugs",
            "Apply neem oil",
            "Remove affected plant parts" ]),
        ("prevention", vss
          [ "Regular monitoring",
            "Maintain plant health",
            "Avoid over-fertilizing with nitrogen" ]),
        ("severity", vs "medium") ]),
    ("armyworm", vo
      [ ("description", vs "Caterpillars that feed on leaves and stems"),
        ("damage", vs "Chewed leaves, defoliation, stem damage"),
        ("treatment", vss
          [ "Apply Bacillus thuringiensis (Bt)",
            "Use pheromone traps",
            "Hand-picking in small infestations",
            "Apply appropriate insecticides" ]),
        ("prevention", vss
          [ "Regular field inspection",
            "Crop rotation",
            "Remove crop residues" ]),
        ("severity", vs "high") ]),
    ("beetles", vo
      [ ("description", vs "Hard-bodied insects with various feeding habits"),
        ("damage", vs "Holes in leaves, root damage, fruit scarring"),
        ("treatment", vss
          [ "Use beneficial nematodes for soil-dwelling species",
            "Apply diatomaceous earth",
            "Use row covers",
            "Hand-picking for small populations" ]),
        ("prevention", vss
          [ "Crop rotation",
            "Remove plant debris",
            "Encourage beneficial insects" ]),
        ("severity", vs "medium") ]),
    ("bollworm", vo
      [ ("description", vs "Caterpillars that bore into fruits and bolls"),
        ("damage", vs "Fruit damage, yield loss, quality reduction"),
        ("treatment", vss
          [ "Apply Bt-based insecticides",
            "Use pheromone traps for monitoring",
            "Release natural enemies",
            "Apply appropriate chemical control" ]),
        ("prevention", vss
          [ "Plant resistant varieties",
            "Monitor adult moth activity",
            "Destroy crop residues" ]),
        ("severity", vs "high") ]),
    ("healthy_crop", vo
      [ ("description", vs "No pest detected - crop appears healthy"),
        ("damage", vs "No damage observed"),
        ("treatment", vss
          [ "Continue current management practices",
            "Regular monitoring" ]),
        ("prevention", vss
          [ "Maintain good agricultural practices",
            "Regular field inspection",
            "Integrated pest management" ]),
        ("severity", vs "none") ]) ]

/-- Default info of `PestPredictor._get_pest_info` for unknown classes. -/
def pu_default_info : Val := vo
  [ ("description", vs "Unidentified pest or unclear image"),
    ("damage", vs "Damage assessment needed"),
    ("treatment", vss
      [ "Consult with agricultural extension service",
        "Take clear photos for expert identification",
        "Monitor closely for symptoms" ]),
    ("prevention", vss
      [ "Regular monitoring",
        "Maintain plant health",
        "Follow integrated pest management" ]),
    ("severity", vs "unknown") ]

/-- `PestPredictor._get_pest_info`. -/
def pu_get_pest_info (pest_class : String) : Val :=
  (pu_pest_database.lookup pest_class).getD pu_default_info

/-- The result dict assembled by `PestPredictor.predict` (the `timestamp`
key is not modelled; `image_features` is only added on request and is not
modelled either). -/
structure PredResult where
  predicted_class : String
  predicted_class_index : Int
  confidence : ℚ
  status : String
  top_predictions : List TopPred
  threshold : ℚ
  pest_info : Val
deriving Repr

/-- `PestPredictor.predict` as a function of the softmax output of the model,
the vector `v` (`predictions[0]`), and of the class-name table
(`self.class_names`, `PEST_CLASSES` by default).  The source indexes
`class_names[idx]`, which for a classifier output has `len(v) ==
len(class_names)`; out-of-range indices are modelled by `""`.
`self.confidence_threshold` is `0.5`. -/
def predictor_predict (class_names : List String) (v : List ℚ) : PredResult :=
  let predicted_class_idx := np_argmax v
  let confidence := nthQ v predicted_class_idx
  let predicted_class := class_names.getD predicted_class_idx ""
  { predicted_class := predicted_class
    predicted_class_index := (predicted_class_idx : Int)
    confidence := confidence
    status := if 1/2 ≤ confidence then "confident" else "uncertain"
    top_predictions := top_predictions_of class_names v
    threshold := 1/2
    pest_info := pu_get_pest_info predicted_class }

/-! ## Image validation (`utils/image_utils.py`) -/

/-- The PIL image attributes the validator reads. -/
structure PILImage where
  width : Nat
  height : Nat
  mode : String
deriving Repr, DecidableEq

/-- `validate_image`: `None` and non-image values are rejected, the mode
must be RGB/RGBA/L, and both dimensions must lie in `[32, 4096]`. -/
def validate_image : Option PILImage → Bool
  | none => false
  | some image =>
      if !(image.mode ∈ ["RGB", "RGBA", "L"]) then false
      else if image.width < 32 || image.height < 32 then false
      else if image.width > 4096 || image.height > 4096 then false
      else true

/-! ## Single predict endpoint (`api/pest_detection_api.py`) -/

/-- How the request carries the image: a multipart file (with filename and
decode outcome of `Image.open`), base64 JSON data, or nothing. -/
inductive ImgSource where
  | fileUpload (filename : String) (decode : Except String PILImage)
  | base64Data (decode : Except String PILImage)
  | missing

/-- Response of the single predict endpoint.  `predictInvoked` instruments
whether `predictor.predict` was reached. -/
structure EndpointResult where
  status : Nat
  error : Option String := none
  prediction : Option PredResult := none
  predictInvoked : Bool := false
deriving Repr

/-- `predict_pest` (`POST /api/predict` of the pest detection API):
503 without a model, 400 for a missing/empty/undecodable image, 400 when
`validate_image` rejects the decoded image (no prediction is attempted),
otherwise the prediction result (500 if `predict` raises). -/
def predict_pest (modelLoaded : Bool) (src : ImgSource)
    (predictOutcome : Except String PredResult) : EndpointResult :=
  if !modelLoaded then
    { status := 503, error := some "Model not loaded. Please try again later." }
  else
    match src with
    | .missing =>
        { status := 400
          error := some "No image provided. Please upload an image file or provide base64 image data." }
    | .fileUpload filename decode =>
        if filename = "" then
          { status := 400, error := some "No image file selected." }
        else
          match decode with
          | .error e => { status := 400, error := some ("Invalid image file: " ++ e) }
          | .ok image =>
              if !validate_image (some image) then
                { status := 400
                  error := some "Invalid image format. Please provide a valid image file." }
              else
                match predictOutcome with
                | .ok p => { status := 200, prediction := some p, predictInvoked := true }
                | .error e =>
                    { status := 500, error := some ("Prediction failed: " ++ e)
                      predictInvoked := true }
    | .base64Data decode =>
        match decode with
        | .error e => { status := 400, error := some ("Invalid base64 image data: " ++ e) }
        | .ok image =>
            if !validate_image (some image) then
              { status := 400
                error := some "Invalid image format. Please provide a valid image file." }
            else
              match predictOutcome with
              | .ok p => { status := 200, prediction := some p, predictInvoked := true }
              | .error e =>
                  { status := 500, error := some ("Prediction failed: " ++ e)
                    predictInvoked := true }

/-! ## Batch predict endpoint (`api/pest_detection_api.py`) -/

/-- A file of a batch request: filename, decode outcome of
`Image.open(file.read())`, and the outcome `predict` would have on it. -/
structure BatchFile where
  filename : String
  decode : Except String PILImage
  predictOutcome : Except String PredResult

/-- One per-file entry of the batch response. -/
structure BatchEntry where
  index : Nat
  filename : String
  status : String
  error : Option String := none
  prediction : Option PredResult := none
deriving Repr

/-- The per-file loop body of `predict_pest_batch`; the Bool records
whether `predictor.predict` was invoked for this file. -/
def process_batch_file (i : Nat) (f : BatchFile) : BatchEntry × Bool :=
  if f.filename = "" then
    ({ index := i, filename := "", status := "error", error := some "Empty filename" },
     false)
  else
    match f.decode with
    | .error e =>
        ({ index := i, filename := f.filename, status := "error", error := some e },
         false)
    | .ok image =>
        if !validate_image (some image) then
          ({ index := i, filename := f.filename, status := "error",
             error := some "Invalid image format" }, false)
        else
          match f.predictOutcome with
          | .ok p =>
              ({ index := i, filename := f.filename, status := "success",
                 prediction := some p }, true)
          | .error e =>
              ({ index := i, filename := f.filename, status := "error",
                 error := some e }, true)

/-- Response of the batch endpoint; `predictInvocations` instruments how
many times `predictor.predict` ran. -/
structure BatchResponse where
  status : Nat
  results : List BatchEntry := []
  error : Option String := none
  total_images : Nat := 0
  successful_predictions : Nat := 0
  predictInvocations : Nat := 0
deriving Repr

/-- `predict_pest_batch` (`POST /api/predict_batch`): 503 without a model,
400 when the `images` field is absent, empty, or holds more than 10 files
(in which case no file is processed), otherwise one result entry per file. -/
def predict_pest_batch (modelLoaded : Bool) (files : Option (List BatchFile)) :
    BatchResponse :=
  if !modelLoaded then
    { status := 503, error := some "Model not loaded. Please try again later." }
  else
    match files with
    | none => { status := 400, error := some "No images provided for batch prediction." }
    | some fs =>
        if fs.length = 0 then
          { status := 400, error := some "No image files selected." }
        else if fs.length > 10 then
          { status := 400, error := some "Too many images. Maximum 10 images allowed per batch." }
        else
          let processed := ((List.range fs.length).zip fs).map
            (fun p => process_batch_file p.1 p.2)
          { status := 200
            results := processed.map (fun r => r.1)
            total_images := fs.length
            successful_predictions :=
              (processed.filter (fun r => r.1.status = "success")).length
            predictInvocations := (processed.filter (fun r => r.2)).length }

/-! ## Simplified predict endpoint (`simple_api.py`) -/

/-- `pest_classes` of `simple_api.py`. -/
def pest_classes : List String := PEST_CLASSES

/-- The pest information table of `simple_api.get_pest_info`. -/
def sa_pest_database : List (String × Val) :=
  [ ("aphids", vo
      [ ("description", vs "Small soft-bodied insects that feed on plant juices"),
        ("damage", vs "Yellowing leaves, stunted growth, honeydew secretion"),
        ("treatment", vss
          [ "Use insecticidal soap spray", "Introduce beneficial insects",
            "Apply neem oil", "Remove affected parts", "Use reflective mulches" ]),
        ("prevention", vss
          [ "Regular monitoring", "Maintain plant health", "Avoid over-fertilizing",
            "Encourage natural predators" ]),
        ("severity", vs "medium") ]),
    ("armyworm", vo
      [ ("description", vs "Destructive caterpillars that feed on leaves and stems"),
        ("damage", vs "Large holes in leaves, complete defoliation, stem damage"),
        ("treatment", vss
          [ "Apply Bacillus thuringiensis (Bt)", "Use pheromone traps",
            "Hand-picking", "Targeted spraying" ]),
        ("prevention", vss
          [ "Regular field scouting", "Crop rotation", "Remove crop residues",
            "Deep plowing" ]),
        ("severity", vs "high") ]),
    ("beetles", vo
      [ ("description", vs "Hard-shelled insects with various feeding habits"),
        ("damage", vs "Holes in leaves, root damage, fruit scarring"),
        ("treatment", vss
          [ "Row covers", "Beneficial nematodes", "Diatomaceous earth",
            "Targeted pesticides" ]),
        ("prevention", vss
          [ "Crop rotation", "Remove plant debris", "Encourage beneficial insects",
            "Proper sanitation" ]),
        ("severity", vs "medium") ]),
    ("bollworm", vo
      [ ("description", vs "Caterpillars that bore into fruits and cotton bolls"),
        ("damage", vs "Fruit damage, boll damage, yield loss, quality reduction"),
        ("treatment", vss
          [ "Bt-based insecticides", "Pheromone traps", "Release natural enemies",
            "Precise timing sprays" ]),
        ("prevention", vss
          [ "Plant resistant varieties", "Monitor adult moths",
            "Destroy crop residues", "IPM practices" ]),
        ("severity", vs "high") ]),
    ("healthy_crop", vo
      [ ("description", vs "No pest detected - crop appears healthy"),
        ("damage", vs "No damage observed"),
        ("treatment", vss
          [ "Continue current management practices", "Regular monitoring" ]),
        ("prevention", vss
          [ "Maintain good practices", "Regular field inspection",
            "IPM implementation" ]),
        ("severity", vs "none") ]) ]

/-- Default info of `simple_api.get_pest_info`. -/
def sa_default_info : Val := vo
  [ ("description", vs "Pest detected - requires attention"),
    ("damage", vs "May cause crop damage if untreated"),
    ("treatment", vss
      [ "Consult agricultural expert", "Monitor closely",
        "Apply appropriate treatment" ]),
    ("prevention", vss
      [ "Regular monitoring", "Maintain plant health", "Follow IPM practices" ]),
    ("severity", vs "medium") ]

/-- `simple_api.get_pest_info`. -/
def sa_get_pest_info (pest_class : String) : Val :=
  (sa_pest_database.lookup pest_class).getD sa_default_info

/-- The result dict assembled inside `simple_api.predict` from the model
output vector (threshold `0.7`; the `timestamp` key is not modelled). -/
structure SimplePred where
  predicted_class : String
  predicted_class_index : Int
  confidence : ℚ
  status : String
  top_predictions : List TopPred
  pest_info : Val
deriving Repr

/-- The prediction block of `simple_api.predict` on the vector
`predictions[0]`. -/
def simple_result (v : List ℚ) : SimplePred :=
  let predicted_idx := np_argmax v
  let confidence := nthQ v predicted_idx
  let predicted_class := pest_classes.getD predicted_idx ""
  { predicted_class := predicted_class
    predicted_class_index := (predicted_idx : Int)
    confidence := confidence
    status := if 7/10 ≤ confidence then "confident" else "uncertain"
    top_predictions := top_predictions_of pest_classes v
    pest_info := sa_get_pest_info predicted_class }

/-- How a request reaches `simple_api.predict`: a multipart file, only form
data without a file (the base64 form field is read but never decoded, so
`image` stays `None`), or nothing. -/
inductive SimpleSource where
  | fileUpload (filename : String) (decode : Except String PILImage)
  | formDataOnly
  | missing

/-- Response of `simple_api.predict`. -/
structure SimpleEndpointResult where
  status : Nat
  error : Option String := none
  prediction : Option SimplePred := none
  predictInvoked : Bool := false
deriving Repr

/-- `simple_api.predict` (`POST /api/predict` of the simplified API):
503 when the model cannot be loaded, 400 for missing/empty/undecodable
images — but NO dimension or mode validation: any decodable image is
resized to 224×224 and predicted.  `modelOutcome` is the outcome of
`model.predict` (its softmax vector on success). -/
def simple_predict (modelLoadOk : Bool) (src : SimpleSource)
    (modelOutcome : Except String (List ℚ)) : SimpleEndpointResult :=
  if !modelLoadOk then
    { status := 503, error := some "Model not available" }
  else
    match src with
    | .missing => { status := 400, error := some "No image provided" }
    | .formDataOnly => { status := 400, error := some "Invalid image" }
    | .fileUpload filename decode =>
        if filename = "" then
          { status := 400, error := some "No image file selected" }
        else
          match decode with
          | .error e => { status := 400, error := some ("Invalid image file: " ++ e) }
          | .ok _image =>
              match modelOutcome with
              | .ok v =>
                  { status := 200, prediction := some (simple_result v)
                    predictInvoked := true }
              | .error e =>
                  { status := 500, error := some ("Prediction failed: " ++ e)
                    predictInvoked := true }

/-! ## Support definitions for the claim theorems -/

/-- The kharif season record of the knowledge base. -/
def kharif_record : Val :=
  (seasonal_advice_db.lookup "kharif_season").getD (Val.obj [])

/-- The rabi season record of the knowledge base. -/
def rabi_record : Val :=
  (seasonal_advice_db.lookup "rabi_season").getD (Val.obj [])

/-- The zaid season record of the knowledge base. -/
def zaid_record : Val :=
  (seasonal_advice_db.lookup "zaid_season").getD (Val.obj [])

/-- A softmax-shaped vector with 15 pairwise distinct entries (the classes
of the classifier), used to instantiate universally quantified theorems. -/
def sample_probs : List ℚ :=
  (List.range 15).map (fun i => ((15 - i : ℚ)) / 100)

/-- A classifier output with a tie for the maximum between the first two
classes (`aphids` and `armyworm`). -/
def tie_probs : List ℚ := [1/2, 1/2] ++ List.replicate 13 0

/-- The message of the motivating example of the specification. -/
def aphidQuery : String := "I think my crops have aphids"

/-- The session state used to exhibit the `timedelta.seconds` slip of the
sweep: one session whose `last_active` is time 0. -/
def c2_sessions : Sessions := [("farmer1", fresh_session "sid-1" 0)]

/-- A sample history entry for session-state computations. -/
def c5_entry : HistEntry :=
  { timestamp := 5, user_message := "hello", ai_response := "Hello! How can I help?",
    intent := "greeting", confidence := 7/10 }

/-- One `process_query` call followed by one sweep. -/
def c5_ops : List SessOp :=
  [SessOp.query "u1" "sid-7" 5 c5_entry true, SessOp.sweep 6]

/-- The session produced by `c5_ops`. -/
def c5_expected : SessionRec :=
  { session_id := "sid-7", created_at := 5, last_active := 5,
    message_count := 1, conversation_history := [c5_entry] }

/-- A well-formed 64×64 RGB upload whose prediction succeeds. -/
def c7_file : BatchFile :=
  { filename := "leaf.jpg"
    decode := .ok { width := 64, height := 64, mode := "RGB" }
    predictOutcome := .ok (predictor_predict PEST_CLASSES sample_probs) }

/-- A 16×16 image — below the 32-pixel minimum of `validate_image`. -/
def tiny_image : PILImage := { width := 16, height := 16, mode := "RGB" }

/-! ## Helper lemmas -/

/-- A successful association-list lookup exhibits a member. -/
theorem lookup_mem {β : Type} (l : List (String × β)) (k : String) (v : β)
    (h : l.lookup k = some v) : (k, v) ∈ l := by
  induction l with
  | nil => simp [List.lookup] at h
  | cons hd tl ih =>
      obtain ⟨a, b⟩ := hd
      by_cases hk : k == a
      · simp only [List.lookup, hk] at h
        cases h
        have : k = a := by simpa using hk
        subst this
        exact List.mem_cons_self _ _
      · simp only [List.lookup, Bool.not_eq_true] at h
        rw [Bool.of_not_eq_true hk] at h
        exact List.mem_cons_of_mem _ (ih h)

/-- A key absent from the key column is not found. -/
theorem lookup_eq_none_of_not_mem {β : Type} (l : List (String × β)) (k : String)
    (h : k ∉ l.map Prod.fst) : l.lookup k = none := by
  induction l with
  | nil => rfl
  | cons hd tl ih =>
      obtain ⟨a, b⟩ := hd
      simp only [List.map_cons, List.mem_cons, not_or] at h
      have hk : (k == a) = false := by
        simp [h.1]
      simp only [List.lookup, hk]
      exact ih h.2

/-! ## Claim theorems -/

/-- C2: the claim says one sweep leaves only sessions whose idle time is at
most the 3600 s timeout.  The code compares `(now - last_active).seconds`,
the within-day component of the timedelta, so a session idle for a day plus
at most an hour survives the sweep: with `last_active = 0` and `now = 86500`
(idle 86500 s > 3600 s) the session is kept, while a session idle 7200 s is
correctly deleted. -/
theorem C2_sweep_keeps_day_old_session :
    cleanup_old_sessions c2_sessions 86500 = c2_sessions ∧
    (86500 : Int) - (fresh_session "sid-1" 0).last_active > session_timeout ∧
    cleanup_old_sessions c2_sessions 7200 = [] := by
  refine ⟨by decide, by decide, by decide⟩

/-- C8: `process_query` converts any exception of its pipeline into a
`success = False` envelope carrying the fixed `fallback_response` payload
of generic advice (and a non-raising run into a `success = True` envelope),
and `generate_response` converts any exception of an intent-specific
generator into the fixed fallback payload of type `fallback` with
confidence 0.5.  Both handlers are total: no outcome is re-raised. -/
theorem C8_exception_policy (e : String) (analysis : Analysis) (r : Resp) :
    process_query_result (.error e) =
      { success := false, error := some e,
        fallback_response := some process_query_fallback } ∧
    (process_query_result (.error e)).success = false ∧
    process_query_fallback.type = "error_fallback" ∧
    process_query_fallback.confidence = 1/2 ∧
    generate_response_caught analysis (.error e) = generate_fallback_response analysis ∧
    (generate_response_caught analysis (.error e)).type = "fallback" ∧
    (generate_response_caught analysis (.error e)).confidence = 1/2 ∧
    process_query_result (.ok r) = { success := true, response := some r } :=
  ⟨rfl, rfl, rfl, rfl, rfl, rfl, rfl, rfl⟩

/-- Witness for C8 at a concrete exception and analysis. -/
theorem C8_exception_policy_witness :
    process_query_result (.error "boom") =
      { success := false, error := some "boom",
        fallback_response := some process_query_fallback } ∧
    (generate_response_caught (analyze_query "hello") (.error "boom")).type = "fallback" :=
  ⟨(C8_exception_policy "boom" (analyze_query "hello") process_query_fallback).1,
   (C8_exception_policy "boom" (analyze_query "hello") process_query_fallback).2.2.2.2.2.1⟩

/-- C9: the knowledge-base operations are pure reads — each returns the
knowledge base unchanged — and the `get_*` lookups return the empty dict
for any name absent from their category. -/
theorem C9_kb_read_only (kb : KB) (name q : String) (cat : Option String)
    (nowMonth m : Int) :
    (get_crop_info kb name).2 = kb ∧
    (get_pest_info kb name).2 = kb ∧
    (get_disease_info kb name).2 = kb ∧
    (search_knowledge kb q cat).2 = kb ∧
    (get_seasonal_advice kb nowMonth (some m)).2 = kb ∧
    (pyLowerS name ∉ kb.crops.map Prod.fst → (get_crop_info kb name).1 = Val.obj []) ∧
    (pyLowerS name ∉ kb.pests.map Prod.fst → (get_pest_info kb name).1 = Val.obj []) ∧
    (pyLowerS name ∉ kb.diseases.map Prod.fst →
      (get_disease_info kb name).1 = Val.obj []) := by
  refine ⟨rfl, rfl, rfl, rfl, ?_, ?_, ?_, ?_⟩
  · unfold get_seasonal_advice
    dsimp only [Option.getD]
    split
    · rfl
    split
    · rfl
    · rfl
  · intro h
    simp only [get_crop_info, lookup_eq_none_of_not_mem kb.crops (pyLowerS name) h,
      Option.getD_none]
  · intro h
    simp only [get_pest_info, lookup_eq_none_of_not_mem kb.pests (pyLowerS name) h,
      Option.getD_none]
  · intro h
    simp only [get_disease_info, lookup_eq_none_of_not_mem kb.diseases (pyLowerS name) h,
      Option.getD_none]

/-- Witness for C9: `quinoa` is absent from the crop table of the concrete
knowledge base, and the lookup returns the empty dict. -/
theorem C9_kb_read_only_witness :
    pyLowerS "Quinoa" ∉ farmoraKB.crops.map Prod.fst ∧
    (get_crop_info farmoraKB "Quinoa").1 = Val.obj [] ∧
    (search_knowledge farmoraKB "aphids" none).2 = farmoraKB :=
  ⟨by decide,
   (C9_kb_read_only farmoraKB "Quinoa" "aphids" none 0 0).2.2.2.2.2.1 (by decide),
   (C9_kb_read_only farmoraKB "Quinoa" "aphids" none 0 0).2.2.2.1⟩

/-- C10: `get_seasonal_advice` is total on months 1–12 and returns exactly
one of the three season records: months 6–11 the kharif record (month 11,
though also listed in the rabi branch, is caught by the kharif test first),
months 12, 1, 2, 3, 4 the rabi record, and month 5 the zaid record; the
three records are pairwise distinct. -/
theorem C10_seasonal_dispatch (m : Int) (h1 : 1 ≤ m) (h2 : m ≤ 12) (nowMonth : Int) :
    ((6 ≤ m ∧ m ≤ 11) →
      (get_seasonal_advice farmoraKB nowMonth (some m)).1 = kharif_record) ∧
    ((m = 12 ∨ m ≤ 4) →
      (get_seasonal_advice farmoraKB nowMonth (some m)).1 = rabi_record) ∧
    (m = 5 → (get_seasonal_advice farmoraKB nowMonth (some m)).1 = zaid_record) ∧
    ((get_seasonal_advice farmoraKB nowMonth (some m)).1 = kharif_record ∨
     (get_seasonal_advice farmoraKB nowMonth (some m)).1 = rabi_record ∨
     (get_seasonal_advice farmoraKB nowMonth (some m)).1 = zaid_record) ∧
    kharif_record ≠ rabi_record ∧ kharif_record ≠ zaid_record ∧
    rabi_record ≠ zaid_record := by
  have hd1 : kharif_record ≠ rabi_record := fun h =>
    absurd (congrArg (fun v => pyStrTop (v.get "months" (vs ""))) h) (by decide)
  have hd2 : kharif_record ≠ zaid_record := fun h =>
    absurd (congrArg (fun v => pyStrTop (v.get "months" (vs ""))) h) (by decide)
  have hd3 : rabi_record ≠ zaid_record := fun h =>
    absurd (congrArg (fun v => pyStrTop (v.get "months" (vs ""))) h) (by decide)
  refine ⟨?_, ?_, ?_, ?_, hd1, hd2, hd3⟩
  · intro h
    interval_cases m <;> first | rfl | omega
  · intro h
    interval_cases m <;> first | rfl | omega
  · intro h
    interval_cases m <;> first | rfl | omega
  · interval_cases m <;>
      first
        | exact Or.inl rfl
        | exact Or.inr (Or.inl rfl)
        | exact Or.inr (Or.inr rfl)

/-- Witness for C10 at the overlapping month 11: the kharif record wins. -/
theorem C10_seasonal_dispatch_witness :
    (get_seasonal_advice farmoraKB 0 (some 11)).1 = kharif_record :=
  (C10_seasonal_dispatch 11 (by decide) (by decide) 0).1 ⟨by decide, by decide⟩

/-- The nested loop of `_detect_intent` is the first-match scan of the
ordered pattern table. -/
theorem detect_intent_scan_eq_find (l : List (String × List Pattern)) (q : List Char) :
    detect_intent_scan l q =
      (l.find? (fun ip => ip.2.any (fun p => patMatch p q))).map (fun ip => ip.1) := by
  induction l with
  | nil => rfl
  | cons hd tl ih =>
      obtain ⟨nm, pats⟩ := hd
      cases hc : pats.any (fun p => patMatch p q) <;>
        simp [detect_intent_scan, List.find?, hc, ih]

/-- C3: intent detection scans the intent categories and their patterns in
their listed order and returns the intent of the first matching pattern
(`spec_first_intent` is the wording the specification uses for that scan); it is a
total function — equal inputs give equal results and no exception is
modelled because none can be raised — it falls back to `general_inquiry`
when no intent pattern and no greeting pattern matches, and it always
returns one of the eight intent labels, `greeting`, or `general_inquiry`. -/
theorem C3_intent_detection (q : List Char) :
    detect_intent q =
      (match spec_first_intent q with
       | some i => i
       | none =>
           if patMatch greeting_pattern (lowerL q) then "greeting"
           else "general_inquiry") ∧
    ((∀ ip ∈ intent_patterns, ∀ p ∈ ip.2, patMatch p (lowerL q) = false) →
      patMatch greeting_pattern (lowerL q) = false →
      detect_intent q = "general_inquiry") ∧
    detect_intent q ∈
      intent_patterns.map (fun ip => ip.1) ++ ["greeting", "general_inquiry"] := by
  have hscan := detect_intent_scan_eq_find intent_patterns (lowerL q)
  refine ⟨?_, ?_, ?_⟩
  · unfold detect_intent spec_first_intent
    rw [hscan]
  · intro hall hgreet
    have hnone :
        intent_patterns.find? (fun ip => ip.2.any (fun p => patMatch p (lowerL q))) = none := by
      rw [List.find?_eq_none]
      intro ip hip
      simp only [List.any_eq_true, not_exists, not_and]
      intro p hp
      simp [hall ip hip p hp]
    unfold detect_intent
    rw [hscan, hnone]
    simp [hgreet]
  · unfold detect_intent
    rw [hscan]
    cases hfind :
        intent_patterns.find? (fun ip => ip.2.any (fun p => patMatch p (lowerL q))) with
    | none =>
        show (if patMatch greeting_pattern (lowerL q) then "greeting"
              else "general_inquiry") ∈ _
        split <;> simp
    | some ip =>
        show ip.1 ∈ _
        have hmem := List.mem_of_find?_eq_some hfind
        simp only [List.mem_append, List.mem_map]
        exact Or.inl ⟨ip, hmem, rfl⟩

/-- Witness for C3: a query matching nothing yields `general_inquiry`. -/
theorem C3_intent_detection_witness : detect_intent (chars "zzzz") = "general_inquiry" :=
  (C3_intent_detection (chars "zzzz")).2.1 (by decide) (by decide)

/-- An image with a dimension below 32 pixels never validates. -/
theorem validate_image_small_false (img : PILImage)
    (hsmall : img.width < 32 ∨ img.height < 32) :
    validate_image (some img) = false := by
  have hb : (decide (img.width < 32) || decide (img.height < 32)) = true := by
    rcases hsmall with h | h <;> simp [h]
  unfold validate_image
  split
  · rfl
  · rename_i image heq
    injection heq with h
    subst h
    by_cases hm : (!decide (img.mode ∈ ["RGB", "RGBA", "L"])) = true
    · rw [if_pos hm]
    · rw [if_neg hm, if_pos hb]

/-- C6 counterexample: the claim quantifies over the predict endpoints of
the cited sources, but `simple_api.predict` performs no dimension check —
a successfully decoded 16×16 image is resized and predicted with HTTP 200,
not 400. -/
theorem C6_counterexample :
    tiny_image.width < 32 ∧
    (simple_predict true (.fileUpload "leaf.png" (.ok tiny_image))
        (.ok sample_probs)).status = 200 ∧
    (simple_predict true (.fileUpload "leaf.png" (.ok tiny_image))
        (.ok sample_probs)).predictInvoked = true ∧
    ¬ (simple_predict true (.fileUpload "leaf.png" (.ok tiny_image))
        (.ok sample_probs)).status = 400 :=
  ⟨by decide, rfl, rfl, by decide⟩

/-- C6 amended: for every image with a dimension below 32 pixels, the pest
predict endpoint of the detection API (file upload or base64) answers HTTP 400
with an error body and never reaches `predictor.predict`; the predict
endpoint of the simplified API performs no dimension validation and returns an
HTTP 200 prediction for the same image. -/
theorem C6_small_image_rejected (img : PILImage)
    (hsmall : img.width < 32 ∨ img.height < 32)
    (fn : String) (hfn : ¬ fn = "")
    (po : Except String PredResult) (v : List ℚ) :
    (predict_pest true (.fileUpload fn (.ok img)) po).status = 400 ∧
    (predict_pest true (.fileUpload fn (.ok img)) po).error =
      some "Invalid image format. Please provide a valid image file." ∧
    (predict_pest true (.fileUpload fn (.ok img)) po).predictInvoked = false ∧
    (predict_pest true (.base64Data (.ok img)) po).status = 400 ∧
    (predict_pest true (.base64Data (.ok img)) po).predictInvoked = false ∧
    (simple_predict true (.fileUpload fn (.ok img)) (.ok v)).status = 200 ∧
    (simple_predict true (.fileUpload fn (.ok img)) (.ok v)).prediction =
      some (simple_result v) := by
  have hv := validate_image_small_false img hsmall
  refine ⟨?_, ?_, ?_, ?_, ?_, ?_, ?_⟩ <;>
    simp [predict_pest, simple_predict, hfn, hv]

/-- Witness for C6 amended at the 16×16 image. -/
theorem C6_small_image_rejected_witness :
    (tiny_image.width < 32 ∨ tiny_image.height < 32) ∧
    (predict_pest true (.fileUpload "leaf.png" (.ok tiny_image))
        (.ok (predictor_predict PEST_CLASSES sample_probs))).status = 400 ∧
    (simple_predict true (.fileUpload "leaf.png" (.ok tiny_image))
        (.ok sample_probs)).status = 200 :=
  ⟨by decide,
   (C6_small_image_rejected tiny_image (by decide) "leaf.png" (by decide)
      (.ok (predictor_predict PEST_CLASSES sample_probs)) sample_probs).1,
   (C6_small_image_rejected tiny_image (by decide) "leaf.png" (by decide)
      (.ok (predictor_predict PEST_CLASSES sample_probs)) sample_probs).2.2.2.2.2.1⟩

/-- C7: the batch endpoint rejects more than 10 files with HTTP 400, an
error body, and no prediction attempted on any file (`predictInvocations =
0` and no results), and for 1 to 10 files it answers HTTP 200 with exactly
one per-file result entry. -/
theorem C7_batch_limit (files : List BatchFile) :
    (files.length > 10 →
      predict_pest_batch true (some files) =
        { status := 400,
          error := some "Too many images. Maximum 10 images allowed per batch." }) ∧
    (1 ≤ files.length → files.length ≤ 10 →
      (predict_pest_batch true (some files)).status = 200 ∧
      (predict_pest_batch true (some files)).results.length = files.length) := by
  constructor
  · intro h
    have h0 : ¬ files.length = 0 := by omega
    simp [predict_pest_batch, h0, h]
  · intro h1 h10
    have h0 : ¬ files.length = 0 := by omega
    have hgt : ¬ files.length > 10 := by omega
    constructor
    · simp [predict_pest_batch, h0, hgt]
    · simp [predict_pest_batch, h0, hgt]

/-- Witness for C7: 11 identical files are rejected outright; 2 files give
two result entries. -/
theorem C7_batch_limit_witness :
    (List.replicate 11 c7_file).length > 10 ∧
    predict_pest_batch true (some (List.replicate 11 c7_file)) =
      { status := 400,
        error := some "Too many images. Maximum 10 images allowed per batch." } ∧
    (predict_pest_batch true (some (List.replicate 2 c7_file))).results.length = 2 :=
  ⟨by decide,
   (C7_batch_limit (List.replicate 11 c7_file)).1 (by decide),
   ((C7_batch_limit (List.replicate 2 c7_file)).2 (by decide) (by decide)).2⟩

/-- One session update keeps the history within the cap (the truncation to
the last 20 entries enforces it whenever the appended history overflows). -/
theorem update_session_bound (now : Int) (entry : HistEntry) (ok : Bool)
    (s : SessionRec) (h : s.conversation_history.length ≤ 20) :
    (update_session now entry ok s).conversation_history.length ≤ 20 := by
  unfold update_session
  cases ok with
  | false => simpa using h
  | true =>
      simp only [if_true]
      split
      · rename_i hgt
        simp only [lastN, List.length_drop]
        omega
      · rename_i hle
        simp only [List.length_append] at hle ⊢
        omega

/-- Every session operation preserves the history cap across the whole
mapping. -/
theorem apply_sess_op_bound (st : Sessions) (op : SessOp)
    (h : ∀ kv ∈ st, kv.2.conversation_history.length ≤ 20) :
    ∀ kv ∈ apply_sess_op st op, kv.2.conversation_history.length ≤ 20 := by
  cases op with
  | sweep now =>
      intro kv hkv
      exact h kv (List.mem_of_mem_filter hkv)
  | query uid sid now entry ok =>
      intro kv hkv
      unfold apply_sess_op process_query_sessions at hkv
      simp only [List.mem_map] at hkv
      obtain ⟨kv0, hkv0, heq⟩ := hkv
      have hb0 : kv0.2.conversation_history.length ≤ 20 := by
        by_cases hl : (st.lookup uid).isSome
        · rw [if_pos hl] at hkv0
          exact h kv0 hkv0
        · rw [if_neg hl] at hkv0
          rcases List.mem_append.1 hkv0 with hm | hm
          · exact h kv0 hm
          · have : kv0 = (uid, fresh_session sid now) := by simpa using hm
            rw [this]
            simp [fresh_session]
      by_cases hu : kv0.1 = uid
      · rw [if_pos hu] at heq
        rw [← heq]
        exact update_session_bound now entry ok kv0.2 hb0
      · rw [if_neg hu] at heq
        rw [← heq]
        exact hb0

/-- Running any sequence of operations from a capped state stays capped. -/
theorem run_sess_ops_bound (ops : List SessOp) (st : Sessions)
    (h : ∀ kv ∈ st, kv.2.conversation_history.length ≤ 20) :
    ∀ kv ∈ run_sess_ops st ops, kv.2.conversation_history.length ≤ 20 := by
  induction ops generalizing st with
  | nil => exact h
  | cons op ops ih =>
      exact ih (apply_sess_op st op) (apply_sess_op_bound st op h)

/-- C5: starting from the empty session mapping, after any interleaving of
`process_query` calls (successful or raising) and sweeps, the
`conversation_history` of every session holds at most 20 entries. -/
theorem C5_history_cap (ops : List SessOp) (uid : String) (s : SessionRec)
    (hs : (run_sess_ops [] ops).lookup uid = some s) :
    s.conversation_history.length ≤ 20 :=
  run_sess_ops_bound ops [] (by simp) (uid, s) (lookup_mem _ _ _ hs)

/-- Witness for C5: one call followed by one sweep yields a one-entry
history, within the cap. -/
theorem C5_history_cap_witness :
    (run_sess_ops [] c5_ops).lookup "u1" = some c5_expected ∧
    c5_expected.conversation_history.length ≤ 20 :=
  ⟨rfl, C5_history_cap c5_ops "u1" c5_expected rfl⟩

/-- C1 counterexample: analysing "I think my crops have aphids" does NOT
yield intent `pest_identification` — no intent pattern matches the
sentence, and the greeting pattern `hello|hi|hey|…` matches the substring
`hi` inside "think", so the intent is `greeting`. -/
theorem C1_counterexample :
    (analyze_query aphidQuery).intent = "greeting" ∧
    ¬ (analyze_query aphidQuery).intent = "pest_identification" :=
  ⟨rfl, by decide⟩

set_option maxRecDepth 200000 in
/-- C1 amended: analysing the example message yields intent `greeting`
(the greeting regex matches the `hi` inside "think") with extracted pest
entities `["aphid"]`; the response generated for that analysis by
`generate_response` therefore comes from the general-inquiry branch — its
type is `general_advice`, the knowledge-base search finds no entry
containing the sentence — and its message does not contain the word
"aphid". -/
theorem C1_aphid_example (nowMonth : Int) :
    (analyze_query aphidQuery).intent = "greeting" ∧
    (analyze_query aphidQuery).entities.pests = ["aphid"] ∧
    (generate_response farmoraKB nowMonth (analyze_query aphidQuery) none).type =
      "general_advice" ∧
    containsSub (chars "aphid")
      (chars (generate_response farmoraKB nowMonth (analyze_query aphidQuery) none).message) =
      false := by
  refine ⟨rfl, rfl, ?_, ?_⟩
  · rfl
  · rfl

/-- Witness for C1 amended at a concrete month. -/
theorem C1_aphid_example_witness :
    (analyze_query aphidQuery).intent = "greeting" ∧
    (analyze_query aphidQuery).entities.pests = ["aphid"] ∧
    (generate_response farmoraKB 7 (analyze_query aphidQuery) none).type =
      "general_advice" ∧
    containsSub (chars "aphid")
      (chars (generate_response farmoraKB 7 (analyze_query aphidQuery) none).message) =
      false :=
  C1_aphid_example 7

/-- Fuel-indexed specification of the `np.argmax` accumulator loop over the
suffix `v.drop i`: the result is a valid index whose value dominates the
running best and every element of the scanned suffix. -/
theorem argmaxFrom_drop_spec (v : List ℚ) :
    ∀ (fuel i best : Nat), v.length - i ≤ fuel → i ≤ v.length → best < v.length →
      argmaxFrom (v.drop i) i best (nthQ v best) < v.length ∧
      nthQ v best ≤ nthQ v (argmaxFrom (v.drop i) i best (nthQ v best)) ∧
      ∀ j, i ≤ j → j < v.length →
        nthQ v j ≤ nthQ v (argmaxFrom (v.drop i) i best (nthQ v best)) := by
  intro fuel
  induction fuel with
  | zero =>
      intro i best hf hi hb
      have hnil : v.drop i = [] := List.drop_eq_nil_of_le (by omega)
      rw [hnil]
      simp only [argmaxFrom]
      exact ⟨hb, le_refl _, fun j hj1 hj2 => absurd hj2 (by omega)⟩
  | succ n ih =>
      intro i best hf hi hb
      by_cases hil : i < v.length
      · have hget : nthQ v i = v[i] := List.getD_eq_getElem v 0 hil
        have hdrop : v.drop i = nthQ v i :: v.drop (i + 1) := by
          rw [hget]
          exact List.drop_eq_getElem_cons hil
        rw [hdrop]
        simp only [argmaxFrom]
        by_cases hlt : nthQ v best < nthQ v i
        · rw [if_pos hlt]
          have hrec := ih (i + 1) i (by omega) (by omega) hil
          refine ⟨hrec.1, le_of_lt (lt_of_lt_of_le hlt hrec.2.1), ?_⟩
          intro j hj1 hj2
          rcases Nat.eq_or_lt_of_le hj1 with he | hlt2
          · rw [← he]
            exact hrec.2.1
          · exact hrec.2.2 j hlt2 hj2
        · rw [if_neg hlt]
          push_neg at hlt
          have hrec := ih (i + 1) best (by omega) (by omega) hb
          refine ⟨hrec.1, hrec.2.1, ?_⟩
          intro j hj1 hj2
          rcases Nat.eq_or_lt_of_le hj1 with he | hlt2
          · rw [← he]
            exact le_trans hlt hrec.2.1
          · exact hrec.2.2 j hlt2 hj2
      · have hnil : v.drop i = [] := List.drop_eq_nil_of_le (by omega)
        rw [hnil]
        simp only [argmaxFrom]
        exact ⟨hb, le_refl _, fun j hj1 hj2 => absurd hj2 (by omega)⟩

/-- `np.argmax` returns a valid index of a non-empty vector. -/
theorem np_argmax_lt (v : List ℚ) (hv : 0 < v.length) : np_argmax v < v.length := by
  cases v with
  | nil => simp at hv
  | cons x xs =>
      exact (argmaxFrom_drop_spec (x :: xs) (x :: xs).length 1 0 (by omega) (by omega)
        (by simp)).1

/-- The value at `np.argmax` dominates every element of the vector. -/
theorem np_argmax_max (v : List ℚ) (j : Nat) (hj : j < v.length) :
    nthQ v j ≤ nthQ v (np_argmax v) := by
  cases v with
  | nil => simp at hj
  | cons x xs =>
      have h := argmaxFrom_drop_spec (x :: xs) (x :: xs).length 1 0 (by omega) (by omega)
        (by simp)
      rcases Nat.eq_zero_or_pos j with hj0 | hjpos
      · rw [hj0]
        exact h.2.1
      · exact h.2.2 j hjpos hj

/-- The index sort is ascending in the looked-up values. -/
theorem np_argsort_sorted (v : List ℚ) :
    List.Sorted (fun i j => nthQ v i ≤ nthQ v j) (np_argsort v) := by
  letI : IsTotal Nat (fun i j => nthQ v i ≤ nthQ v j) := ⟨fun a b => le_total _ _⟩
  letI : IsTrans Nat (fun i j => nthQ v i ≤ nthQ v j) := ⟨fun a b c h1 h2 => le_trans h1 h2⟩
  exact List.sorted_insertionSort _ _

/-- The index sort permutes `range v.length`. -/
theorem np_argsort_perm (v : List ℚ) : (np_argsort v).Perm (List.range v.length) :=
  List.perm_insertionSort _ _

/-- The index sort has one entry per element. -/
theorem np_argsort_length (v : List ℚ) : (np_argsort v).length = v.length := by
  unfold np_argsort
  rw [List.length_insertionSort, List.length_range]

/-- The reversed index sort of a non-empty vector starts with an index of a
maximal element. -/
theorem argsort_reverse_head (v : List ℚ) (hv : 0 < v.length) :
    ∃ h t, (np_argsort v).reverse = h :: t ∧ h < v.length ∧
      ∀ j, j < v.length → nthQ v j ≤ nthQ v h := by
  have hlen : (np_argsort v).reverse.length = v.length := by
    rw [List.length_reverse, np_argsort_length]
  obtain ⟨h, t, hht⟩ : ∃ h t, (np_argsort v).reverse = h :: t := by
    cases hrev : (np_argsort v).reverse with
    | nil => rw [hrev] at hlen; simp at hlen; omega
    | cons a b => exact ⟨a, b, rfl⟩
  have hpair : List.Pairwise (fun i j => nthQ v j ≤ nthQ v i) ((np_argsort v).reverse) :=
    List.pairwise_reverse.2 (np_argsort_sorted v)
  refine ⟨h, t, hht, ?_, ?_⟩
  · have hmem : h ∈ np_argsort v := by
      rw [← List.mem_reverse, hht]
      exact List.mem_cons_self _ _
    exact List.mem_range.1 (((np_argsort_perm v).mem_iff).1 hmem)
  · intro j hj
    have hjmem : j ∈ (np_argsort v).reverse := by
      rw [List.mem_reverse]
      exact ((np_argsort_perm v).mem_iff).2 (List.mem_range.2 hj)
    rw [hht] at hjmem hpair
    rcases List.mem_cons.1 hjmem with he | hmem2
    · rw [he]
    · exact (List.pairwise_cons.1 hpair).1 j hmem2

/-- C4 amended: for every classifier output vector (15 softmax entries in
[0,1]), the result of `PestPredictor.predict` has confidence in [0,1] equal
to the maximum of the vector, a `top_predictions` list of exactly 3 entries
sorted non-increasingly by confidence whose first entry carries the
confidence field; and — provided the maximum is attained at a unique
index — the class of the first entry equals `predicted_class`.  (With a tied
maximum the reversed stable argsort puts the last maximal index first while
`np.argmax` picks the first, so the class conjunct needs the uniqueness
proviso; see the counterexample.) -/
theorem C4_prediction_shape (v : List ℚ) (hlen : v.length = 15)
    (hrange : ∀ x ∈ v, 0 ≤ x ∧ x ≤ 1) :
    (0 ≤ (predictor_predict PEST_CLASSES v).confidence ∧
      (predictor_predict PEST_CLASSES v).confidence ≤ 1) ∧
    (predictor_predict PEST_CLASSES v).top_predictions.length = 3 ∧
    List.Pairwise (fun a b => b.confidence ≤ a.confidence)
      (predictor_predict PEST_CLASSES v).top_predictions ∧
    ((predictor_predict PEST_CLASSES v).top_predictions.map TopPred.confidence).head? =
      some (predictor_predict PEST_CLASSES v).confidence ∧
    (∀ j, j < v.length → nthQ v j ≤ (predictor_predict PEST_CLASSES v).confidence) ∧
    ((∀ j, j < v.length → j ≠ np_argmax v → nthQ v j < nthQ v (np_argmax v)) →
      ((predictor_predict PEST_CLASSES v).top_predictions.map TopPred.cls).head? =
        some (predictor_predict PEST_CLASSES v).predicted_class) := by
  have hvpos : 0 < v.length := by omega
  obtain ⟨h, t, hht, hhlt, hhmax⟩ := argsort_reverse_head v hvpos
  have hamlt := np_argmax_lt v hvpos
  have hconfmem : nthQ v (np_argmax v) ∈ v := by
    have hg : nthQ v (np_argmax v) = v[np_argmax v] := List.getD_eq_getElem v 0 hamlt
    rw [hg]
    exact List.getElem_mem hamlt
  have hheq : nthQ v h = nthQ v (np_argmax v) :=
    le_antisymm (np_argmax_max v h hhlt) (hhmax (np_argmax v) hamlt)
  refine ⟨?_, ?_, ?_, ?_, ?_, ?_⟩
  · exact hrange _ hconfmem
  · show (top_predictions_of PEST_CLASSES v).length = 3
    unfold top_predictions_of
    rw [List.length_map, List.length_take, List.length_reverse, np_argsort_length, hlen]
    decide
  · show List.Pairwise _ (top_predictions_of PEST_CLASSES v)
    have hpair : List.Pairwise (fun i j => nthQ v j ≤ nthQ v i) ((np_argsort v).reverse) :=
      List.pairwise_reverse.2 (np_argsort_sorted v)
    have htake := List.Pairwise.sublist (List.take_sublist 3 _) hpair
    unfold top_predictions_of
    rw [List.pairwise_map]
    exact htake
  · show ((top_predictions_of PEST_CLASSES v).map TopPred.confidence).head? = _
    unfold top_predictions_of
    rw [hht, List.take_succ_cons, List.map_cons, List.map_cons, List.head?_cons]
    exact congrArg some hheq
  · intro j hj
    exact np_argmax_max v j hj
  · intro huniq
    have hha : h = np_argmax v := by
      by_contra hne
      exact absurd hheq (ne_of_lt (huniq h hhlt hne))
    show ((top_predictions_of PEST_CLASSES v).map TopPred.cls).head? = _
    unfold top_predictions_of
    rw [hht, List.take_succ_cons, List.map_cons, List.map_cons, List.head?_cons, hha]
    rfl

/-- C4 counterexample: on the tied softmax vector `[0.5, 0.5, 0, …]`
(a legitimate classifier output), `predicted_class` is `aphids`
(`np.argmax` picks index 0) but the first `top_predictions` entry is
`armyworm` (index 1, since the reversed stable ascending argsort puts the
later of two tied maximal indices first), so the claimed equality between
the class of the first entry and `predicted_class` fails. -/
theorem C4_counterexample :
    (∀ x ∈ tie_probs, 0 ≤ x ∧ x ≤ 1) ∧
    tie_probs.length = 15 ∧
    (predictor_predict PEST_CLASSES tie_probs).predicted_class = "aphids" ∧
    ((predictor_predict PEST_CLASSES tie_probs).top_predictions.map TopPred.cls).head? =
      some "armyworm" ∧
    ¬ (((predictor_predict PEST_CLASSES tie_probs).top_predictions.map TopPred.cls).head? =
        some (predictor_predict PEST_CLASSES tie_probs).predicted_class) := by
  refine ⟨by with_unfolding_all decide, by decide, by with_unfolding_all decide,
    by with_unfolding_all decide, by with_unfolding_all decide⟩

/-- Witness for C4 amended at a vector with pairwise distinct entries. -/
theorem C4_prediction_shape_witness :
    sample_probs.length = 15 ∧
    (predictor_predict PEST_CLASSES sample_probs).top_predictions.length = 3 :=
  ⟨by decide, (C4_prediction_shape sample_probs (by decide)
    (by with_unfolding_all decide)).2.1⟩
